import Mathlib

/-!
# QtMediaPlayer: the MDK engine binding and the Vulkan texture path

A shallow embedding of

* `src/backends/mdk/mdkqthelper.cpp`: `MDKData` (the table of resolved entry
  points, `load`, `unload`, `isLoaded`, the constructor), the call-through
  wrappers and `getMDKVersion`;
* `src/backends/mdk/mdkvideotexturenode_impl.cpp`: `ensureTexture` with all its
  backend branches, `buildTexture` and `freeTexture`;
* `src/backends/mpv/mpvvideotexturenode.cpp`: `sync`, `render` and
  `ensureTexture`;
* `src/common/playerinterface.cpp`: `nextChapter`, `previousChapter`,
  `recommendedWindowSize`, `variantHashToString` and `getMediaTracksSummary`.

Conventions.

* A pointer or handle is a natural number, `0` being `nullptr` /
  `VK_NULL_HANDLE`.
* `Q_ASSERT` expands to nothing (a release build, `QT_NO_DEBUG`); logging calls
  have no effect on the state and are left out.
* Every operation runs to completion; the mutex appears only in the section on
  threads, where the steps of the call-through wrappers are interleaved.
* `QLibrary`, the engine behind the resolved pointers, the graphics APIs, the
  renderer interface and libmpv are collaborators outside the repository. Their
  answers are parameters (`LibEnv`, `Engine`, `VkDriver`, `Host`), and every
  call made to them is recorded in the list of events an operation returns.
* The texture nodes are those of a Qt 6 build; the platform and feature
  switches are a `BuildConfig`. `qFatal` ends a call with the outcome `fatal`.
  `fromNative` wraps a non-null native object into a texture.
* Item sizes and the device pixel ratio are exact rationals.
-/

namespace QtMediaPlayer

namespace MDK

/-- A raw function pointer; `0` is `nullptr`. -/
abbrev Ptr := Nat

/-- The entry points declared with `WWX190_GENERATE_MDKAPI`, in source order. -/
inductive Api
  -- global.h
  | MDK_javaVM
  | MDK_setLogLevel
  | MDK_logLevel
  | MDK_setLogHandler
  | MDK_setGlobalOptionString
  | MDK_setGlobalOptionInt32
  | MDK_setGlobalOptionPtr
  | MDK_getGlobalOptionString
  | MDK_getGlobalOptionInt32
  | MDK_getGlobalOptionPtr
  | MDK_strdup
  | MDK_version
  -- MediaInfo.h
  | MDK_AudioStreamCodecParameters
  | MDK_AudioStreamMetadata
  | MDK_VideoStreamCodecParameters
  | MDK_VideoStreamMetadata
  | MDK_MediaMetadata
  -- Player.h
  | mdkPlayerAPI_new
  | mdkPlayerAPI_delete
  | MDK_foreignGLContextDestroyed
  -- VideoFrame.h
  | mdkVideoFrameAPI_new
  | mdkVideoFrameAPI_delete
  deriving DecidableEq, Repr, Fintype

/-- The order in which `load` resolves and `unload` clears the entry points. -/
def apiTable : List Api :=
  [ .MDK_javaVM, .MDK_setLogLevel, .MDK_logLevel, .MDK_setLogHandler,
    .MDK_setGlobalOptionString, .MDK_setGlobalOptionInt32, .MDK_setGlobalOptionPtr,
    .MDK_getGlobalOptionString, .MDK_getGlobalOptionInt32, .MDK_getGlobalOptionPtr,
    .MDK_strdup, .MDK_version,
    .MDK_AudioStreamCodecParameters, .MDK_AudioStreamMetadata,
    .MDK_VideoStreamCodecParameters, .MDK_VideoStreamMetadata, .MDK_MediaMetadata,
    .mdkPlayerAPI_new, .mdkPlayerAPI_delete, .MDK_foreignGLContextDestroyed,
    .mdkVideoFrameAPI_new, .mdkVideoFrameAPI_delete ]

/-- The `MDK_LogLevel` enumeration of the engine's `global.h`. -/
inductive MDK_LogLevel
  | MDK_LogLevel_Off
  | MDK_LogLevel_Error
  | MDK_LogLevel_Warning
  | MDK_LogLevel_Info
  | MDK_LogLevel_Debug
  | MDK_LogLevel_All
  deriving DecidableEq, Repr

/-- A value passed to or returned from an entry point. -/
inductive Val
  | unit
  | ptr (p : Ptr)
  | bool (b : Bool)
  | int (i : Int)
  | logLevel (l : MDK_LogLevel)
  deriving DecidableEq, Repr

/-- A call made to a collaborator. -/
inductive Event
  | libUnload
  | libSetFileName (path : String)
  | libLoad (path : String)
  | nativeCall (fn : Ptr) (args : List Val)
  deriving DecidableEq, Repr

/-- What the file system offers to `QLibrary`: whether a file name opens, what
each name resolves to in it (`0` when the symbol is missing), and whether
unloading it succeeds. -/
structure LibEnv where
  opens : String → Bool
  symbol : String → Api → Ptr
  unloads : String → Bool

/-- The engine behind the resolved pointers: the value a native function
returns for its arguments. -/
abbrev Engine := Ptr → List Val → Val

/-- The part of `QLibrary` the binding uses. -/
structure QLibrary where
  fileName : String
  loaded : Bool
  deriving DecidableEq, Repr

namespace QLibrary

/-- Method `QLibrary::isLoaded`. -/
def isLoaded (l : QLibrary) : Bool := l.loaded

/-- Method `QLibrary::unload`: false when nothing is loaded or the unload fails. -/
def unload (env : LibEnv) (l : QLibrary) : Bool × QLibrary :=
  if l.loaded then
    if env.unloads l.fileName then (true, { l with loaded := false }) else (false, l)
  else (false, l)

/-- Method `QLibrary::setFileName`: the object now refers to `path`, not yet loaded. -/
def setFileName (_l : QLibrary) (path : String) : QLibrary :=
  { fileName := path, loaded := false }

/-- Method `QLibrary::load`. -/
def load (env : LibEnv) (l : QLibrary) : Bool × QLibrary :=
  if l.loaded then (true, l)
  else if env.opens l.fileName then (true, { l with loaded := true })
  else (false, l)

/-- Method `QLibrary::resolve` on a loaded library; `0` when the symbol is missing. -/
def resolve (env : LibEnv) (l : QLibrary) (f : Api) : Ptr :=
  if l.loaded then env.symbol l.fileName f else 0

end QLibrary

/-- The struct `MDKData`: one slot `m_lp_<name>` per entry point and the library. -/
@[ext]
structure MDKData where
  m_lp : Api → Ptr
  m_library : QLibrary

namespace MDKData

/-- The member initialisers: every slot `nullptr`, a default `QLibrary`. -/
def init : MDKData :=
  { m_lp := fun _ => 0, m_library := { fileName := "", loaded := false } }

/-- Macro `WWX190_NOTNULL_MDKAPI`. -/
def WWX190_NOTNULL_MDKAPI (d : MDKData) (f : Api) : Bool := d.m_lp f != 0

/-- Method `MDKData::isLoaded`. -/
def isLoaded (d : MDKData) : Bool :=
  -- global.h
  WWX190_NOTNULL_MDKAPI d .MDK_javaVM &&
  WWX190_NOTNULL_MDKAPI d .MDK_setLogLevel &&
  WWX190_NOTNULL_MDKAPI d .MDK_logLevel &&
  WWX190_NOTNULL_MDKAPI d .MDK_setLogHandler &&
  WWX190_NOTNULL_MDKAPI d .MDK_setGlobalOptionString &&
  WWX190_NOTNULL_MDKAPI d .MDK_setGlobalOptionInt32 &&
  WWX190_NOTNULL_MDKAPI d .MDK_setGlobalOptionPtr &&
  WWX190_NOTNULL_MDKAPI d .MDK_getGlobalOptionString &&
  WWX190_NOTNULL_MDKAPI d .MDK_getGlobalOptionInt32 &&
  WWX190_NOTNULL_MDKAPI d .MDK_getGlobalOptionPtr &&
  WWX190_NOTNULL_MDKAPI d .MDK_strdup &&
  WWX190_NOTNULL_MDKAPI d .MDK_version &&
  -- MediaInfo.h
  WWX190_NOTNULL_MDKAPI d .MDK_AudioStreamCodecParameters &&
  WWX190_NOTNULL_MDKAPI d .MDK_AudioStreamMetadata &&
  WWX190_NOTNULL_MDKAPI d .MDK_VideoStreamCodecParameters &&
  WWX190_NOTNULL_MDKAPI d .MDK_VideoStreamMetadata &&
  WWX190_NOTNULL_MDKAPI d .MDK_MediaMetadata &&
  -- Player.h
  WWX190_NOTNULL_MDKAPI d .mdkPlayerAPI_new &&
  WWX190_NOTNULL_MDKAPI d .mdkPlayerAPI_delete &&
  WWX190_NOTNULL_MDKAPI d .MDK_foreignGLContextDestroyed &&
  -- VideoFrame.h
  WWX190_NOTNULL_MDKAPI d .mdkVideoFrameAPI_new &&
  WWX190_NOTNULL_MDKAPI d .mdkVideoFrameAPI_delete

/-- Macro `WWX190_SETNULL_MDKAPI`. -/
def WWX190_SETNULL_MDKAPI (f : Api) (d : MDKData) : MDKData :=
  if d.m_lp f ≠ 0 then { d with m_lp := Function.update d.m_lp f 0 } else d

/-- Method `MDKData::unload`: clear every slot in table order, then unload the library
when it is loaded. -/
def unload (env : LibEnv) (d : MDKData) : Bool × MDKData × List Event :=
  let d1 := apiTable.foldl (fun acc f => WWX190_SETNULL_MDKAPI f acc) d
  if d1.m_library.isLoaded then
    let r := d1.m_library.unload env
    if !r.1 then (false, { d1 with m_library := r.2 }, [Event.libUnload])
    else (true, { d1 with m_library := r.2 }, [Event.libUnload])
  else (true, d1, [])

/-- Macro `WWX190_RESOLVE_MDKAPI`: a slot that is already set is not resolved again. -/
def WWX190_RESOLVE_MDKAPI (env : LibEnv) (f : Api) (d : MDKData) : MDKData :=
  if d.m_lp f = 0 then
    { d with m_lp := Function.update d.m_lp f (d.m_library.resolve env f) }
  else d

/-- Method `MDKData::load`. -/
def load (env : LibEnv) (path : String) (d : MDKData) : Bool × MDKData × List Event :=
  if path = "" then (false, d, [])
  else
    let u : Bool × MDKData × List Event := if d.isLoaded then unload env d else (true, d, [])
    if !u.1 then (false, u.2.1, u.2.2)
    else
      let d1 := u.2.1
      -- Unload first, to clear previous errors.
      let lib1 := (d1.m_library.unload env).2
      let lib2 := lib1.setFileName path
      let r := lib2.load env
      let d2 : MDKData := { d1 with m_library := r.2 }
      let t := u.2.2 ++ [Event.libUnload, Event.libSetFileName path, Event.libLoad path]
      if r.1 then (true, apiTable.foldl (fun acc f => WWX190_RESOLVE_MDKAPI env f acc) d2, t)
      else (false, d2, t)

/-- The candidate list of the constructor: the two built-in names, then the
segments of `QTMEDIAPLAYER_MDK_FILENAME` split at `;` with `Qt::SkipEmptyParts`. -/
def candidates (rawFileNames : String) : List String :=
  let builtin := ["mdk-0", "mdk"]
  if rawFileNames ≠ "" then
    let fileNames := ((rawFileNames.data.splitOn ';').filter (fun seg => seg ≠ [])).map String.mk
    if fileNames ≠ [] then builtin ++ fileNames else builtin
  else builtin

/-- The loop of the constructor: load the candidates in order, stop at the first
`load` that returns true. -/
def tryCandidates (env : LibEnv) : List String → MDKData → MDKData × List Event
  | [], d => (d, [])
  | fileName :: rest, d =>
    if fileName ≠ "" then
      let r := load env fileName d
      if r.1 then (r.2.1, r.2.2)
      else
        let k := tryCandidates env rest r.2.1
        (k.1, r.2.2 ++ k.2)
    else tryCandidates env rest d

/-- The constructor `MDKData::MDKData()`, given the value of the environment
variable `QTMEDIAPLAYER_MDK_FILENAME` (empty when unset). -/
def new (env : LibEnv) (rawFileNames : String) : MDKData × List Event :=
  tryCandidates env (candidates rawFileNames) init

end MDKData

/-- Macro `WWX190_CALL_MDKAPI`: call the slot when it is set. The result is the
returned value (none for a void wrapper), the binding afterwards and the calls
made. -/
def WWX190_CALL_MDKAPI (d : MDKData) (f : Api) (args : List Val) :
    Val × MDKData × List Event :=
  if d.m_lp f ≠ 0 then (Val.unit, d, [Event.nativeCall (d.m_lp f) args])
  else (Val.unit, d, [])

/-- Macro `WWX190_CALL_MDKAPI_RETURN`: the slot's result when it is set, else `defVal`. -/
def WWX190_CALL_MDKAPI_RETURN (eng : Engine) (d : MDKData) (f : Api) (defVal : Val)
    (args : List Val) : Val × MDKData × List Event :=
  if d.m_lp f ≠ 0 then (eng (d.m_lp f) args, d, [Event.nativeCall (d.m_lp f) args])
  else (defVal, d, [])

/-- The exported wrappers `MDK_javaVM` .. `mdkVideoFrameAPI_delete`, one line per
wrapper. `MDK_VERSION` is the version constant of the engine headers the
program was compiled against. -/
def callThrough (MDK_VERSION : Int) (eng : Engine) (d : MDKData) :
    Api → List Val → Val × MDKData × List Event
  -- global.h
  | .MDK_javaVM, args => WWX190_CALL_MDKAPI_RETURN eng d .MDK_javaVM (.ptr 0) args
  | .MDK_setLogLevel, args => WWX190_CALL_MDKAPI d .MDK_setLogLevel args
  | .MDK_logLevel, args =>
      WWX190_CALL_MDKAPI_RETURN eng d .MDK_logLevel (.logLevel .MDK_LogLevel_Debug) args
  | .MDK_setLogHandler, args => WWX190_CALL_MDKAPI d .MDK_setLogHandler args
  | .MDK_setGlobalOptionString, args => WWX190_CALL_MDKAPI d .MDK_setGlobalOptionString args
  | .MDK_setGlobalOptionInt32, args => WWX190_CALL_MDKAPI d .MDK_setGlobalOptionInt32 args
  | .MDK_setGlobalOptionPtr, args => WWX190_CALL_MDKAPI d .MDK_setGlobalOptionPtr args
  | .MDK_getGlobalOptionString, args =>
      WWX190_CALL_MDKAPI_RETURN eng d .MDK_getGlobalOptionString (.bool false) args
  | .MDK_getGlobalOptionInt32, args =>
      WWX190_CALL_MDKAPI_RETURN eng d .MDK_getGlobalOptionInt32 (.bool false) args
  | .MDK_getGlobalOptionPtr, args =>
      WWX190_CALL_MDKAPI_RETURN eng d .MDK_getGlobalOptionPtr (.bool false) args
  | .MDK_strdup, args => WWX190_CALL_MDKAPI_RETURN eng d .MDK_strdup (.ptr 0) args
  | .MDK_version, args => WWX190_CALL_MDKAPI_RETURN eng d .MDK_version (.int MDK_VERSION) args
  -- MediaInfo.h
  | .MDK_AudioStreamCodecParameters, args =>
      WWX190_CALL_MDKAPI d .MDK_AudioStreamCodecParameters args
  | .MDK_AudioStreamMetadata, args =>
      WWX190_CALL_MDKAPI_RETURN eng d .MDK_AudioStreamMetadata (.bool false) args
  | .MDK_VideoStreamCodecParameters, args =>
      WWX190_CALL_MDKAPI d .MDK_VideoStreamCodecParameters args
  | .MDK_VideoStreamMetadata, args =>
      WWX190_CALL_MDKAPI_RETURN eng d .MDK_VideoStreamMetadata (.bool false) args
  | .MDK_MediaMetadata, args =>
      WWX190_CALL_MDKAPI_RETURN eng d .MDK_MediaMetadata (.bool false) args
  -- Player.h
  | .mdkPlayerAPI_new, args => WWX190_CALL_MDKAPI_RETURN eng d .mdkPlayerAPI_new (.ptr 0) args
  | .mdkPlayerAPI_delete, args => WWX190_CALL_MDKAPI d .mdkPlayerAPI_delete args
  | .MDK_foreignGLContextDestroyed, args =>
      WWX190_CALL_MDKAPI d .MDK_foreignGLContextDestroyed args
  -- VideoFrame.h
  | .mdkVideoFrameAPI_new, args =>
      WWX190_CALL_MDKAPI_RETURN eng d .mdkVideoFrameAPI_new (.ptr 0) args
  | .mdkVideoFrameAPI_delete, args => WWX190_CALL_MDKAPI d .mdkVideoFrameAPI_delete args

/-- Whether a wrapper is written with `WWX190_CALL_MDKAPI_RETURN`, that is,
returns a value. -/
def returnsValue : Api → Bool
  | .MDK_javaVM | .MDK_logLevel | .MDK_getGlobalOptionString | .MDK_getGlobalOptionInt32
  | .MDK_getGlobalOptionPtr | .MDK_strdup | .MDK_version | .MDK_AudioStreamMetadata
  | .MDK_VideoStreamMetadata | .MDK_MediaMetadata | .mdkPlayerAPI_new
  | .mdkVideoFrameAPI_new => true
  | _ => false

/-- The kinds of default the specification lists: a null pointer, `false`, or a
value of an enumeration. -/
def Val.isNullFalseOrEnum : Val → Bool
  | .ptr p => p == 0
  | .bool b => b == false
  | .logLevel _ => true
  | _ => false

/-- The C `int` held by a value. -/
def Val.toInt : Val → Int
  | .int i => i
  | _ => 0

/-- Function `getMDKVersion`: unpack the integer returned by the wrapper `MDK_version`. -/
def getMDKVersion (MDK_VERSION : Int) (eng : Engine) (d : MDKData) : String :=
  let fullVerNum : Int := (callThrough MDK_VERSION eng d .MDK_version []).1.toInt
  let majorVerNum : Int := Int.land (fullVerNum >>> (16 : Nat)) 0xff
  let minorVerNum : Int := Int.land (fullVerNum >>> (8 : Nat)) 0xff
  let patchVerNum : Int := Int.land fullVerNum 0xff
  toString majorVerNum ++ "." ++ toString minorVerNum ++ "." ++ toString patchVerNum

end MDK

namespace Vulkan

/-- A Vulkan handle; `0` is `VK_NULL_HANDLE`. -/
abbrev Handle := Nat

/-- A `VkResult` code. -/
abbrev VkResult := Int

/-- Constant `VK_SUCCESS`. -/
def VK_SUCCESS : VkResult := 0

/-- A call the texture node makes to the device, the instance or the engine. -/
inductive Call
  | vkCreateImage (dev : Handle) (width height : Nat)
  | vkGetImageMemoryRequirements (dev image : Handle)
  | vkGetPhysicalDeviceMemoryProperties (physDev : Handle)
  | vkAllocateMemory (dev : Handle) (allocationSize memoryTypeIndex : Nat)
  | vkBindImageMemory (dev image memory : Handle)
  | vkDeviceWaitIdle (dev : Handle)
  | vkFreeMemory (dev memory : Handle)
  | vkDestroyImage (dev image : Handle)
  | setRenderAPI (dev physDev rt : Handle)
  | setRendererReady (ready : Bool)
  deriving DecidableEq, Repr

/-- What the device answers during one `buildTexture`: the result codes, the
handles written on success, and the memory data it reports. -/
structure VkDriver where
  createImage : VkResult
  image : Handle
  memReqSize : Nat
  memoryTypeBits : Nat
  memoryTypeCount : Nat
  allocateMemory : VkResult
  memory : Handle
  bindImageMemory : VkResult

/-- The Vulkan contract the driver is assumed to keep: a successful
`vkCreateImage` writes a handle that is not `VK_NULL_HANDLE`. -/
def VkDriver.WellBehaved (drv : VkDriver) : Prop :=
  drv.createImage = VK_SUCCESS → drv.image ≠ 0

/-- The Vulkan members of `MDKVideoTextureNodeImpl`. The function table `m_devFuncs` belongs to `m_dev` and is
represented by the `dev` argument of each recorded call. -/
structure MDKVideoTextureNodeImpl where
  m_texture_vk : Handle := 0
  m_textureMemory : Handle := 0
  m_physDev : Handle := 0
  m_dev : Handle := 0
  deriving DecidableEq, Repr

namespace MDKVideoTextureNodeImpl

/-- The loop of `buildTexture` over the memory types:
`for (i = 0; i != memoryTypeCount; ++i) { if (!(bits & (1 << i))) continue; memIndex = i; }`
started with `memIndex = 0`. The mask `1 << i` is taken as a 32-bit value. -/
def memIndexLoop (memoryTypeBits memoryTypeCount : Nat) : Nat :=
  (List.range memoryTypeCount).foldl
    (fun memIndex i => if memoryTypeBits &&& ((1 <<< i) % 2 ^ 32) = 0 then memIndex else i) 0

/-- Method `MDKVideoTextureNodeImpl::buildTexture`. -/
def buildTexture (drv : VkDriver) (size : Nat × Nat) (n : MDKVideoTextureNodeImpl) :
    Bool × MDKVideoTextureNodeImpl × List Call :=
  let t1 := [Call.vkCreateImage n.m_dev size.1 size.2]
  if drv.createImage ≠ VK_SUCCESS then (false, n, t1)
  else
    let image := drv.image
    let n1 := { n with m_texture_vk := image }
    let memIndex := memIndexLoop drv.memoryTypeBits drv.memoryTypeCount
    let t2 := t1 ++ [Call.vkGetImageMemoryRequirements n.m_dev image,
                     Call.vkGetPhysicalDeviceMemoryProperties n.m_physDev,
                     Call.vkAllocateMemory n.m_dev drv.memReqSize memIndex]
    if drv.allocateMemory ≠ VK_SUCCESS then (false, n1, t2)
    else
      let n2 := { n1 with m_textureMemory := drv.memory }
      let t3 := t2 ++ [Call.vkBindImageMemory n.m_dev image drv.memory]
      if drv.bindImageMemory ≠ VK_SUCCESS then (false, n2, t3)
      else (true, n2, t3)

/-- Method `MDKVideoTextureNodeImpl::freeTexture`. The result of `vkDeviceWaitIdle` is
only logged (`VK_WARN`), so it does not appear. -/
def freeTexture (n : MDKVideoTextureNodeImpl) : MDKVideoTextureNodeImpl × List Call :=
  if n.m_texture_vk = 0 then (n, [])
  else
    ({ n with m_textureMemory := 0, m_texture_vk := 0 },
     [Call.vkDeviceWaitIdle n.m_dev,
      Call.vkFreeMemory n.m_dev n.m_textureMemory,
      Call.vkDestroyImage n.m_dev n.m_texture_vk])

/-- The `case QSGRendererInterface::Vulkan` block of `ensureTexture` (Qt 6):
`physDev` and `newDev` are the handles the renderer interface reports. The
result is the image wrapped by `QSGVulkanTexture::fromNative`, or none for
`nullptr`. -/
def ensureTextureVulkan (physDev newDev : Handle) (drv : VkDriver) (size : Nat × Nat)
    (n : MDKVideoTextureNodeImpl) :
    Option Handle × MDKVideoTextureNodeImpl × List Call :=
  let n1 := { n with m_physDev := physDev }
  let f := freeTexture n1
  let n2 := { f.1 with m_dev := newDev }
  let b := buildTexture drv size n2
  let n3 := b.2.1
  let t := f.2 ++ b.2.2 ++
    [Call.setRenderAPI n3.m_dev n3.m_physDev n3.m_texture_vk, Call.setRendererReady true]
  (if n3.m_texture_vk ≠ 0 then some n3.m_texture_vk else none, n3, t)

/-- The states a node can be in: a fresh node, and what `ensureTexture` on the
Vulkan backend and `freeTexture` make of a reachable state, for every answer of
a well-behaved driver. -/
inductive Reachable : MDKVideoTextureNodeImpl → Prop
  | fresh : Reachable {}
  | ensure (physDev newDev : Handle) (drv : VkDriver) (size : Nat × Nat)
      (n : MDKVideoTextureNodeImpl) :
      Reachable n → drv.WellBehaved → Reachable (ensureTextureVulkan physDev newDev drv size n).2.1
  | free (n : MDKVideoTextureNodeImpl) : Reachable n → Reachable (freeTexture n).1

end MDKVideoTextureNodeImpl

end Vulkan

namespace Vulkan

namespace MDKVideoTextureNodeImpl

/-- One call made on the node in a run: `ensureTexture` on the Vulkan backend,
with the handles the renderer interface reports and the driver's answers, or
`freeTexture`. -/
inductive Op
  | ensure (physDev newDev : Handle) (drv : VkDriver) (size : Nat × Nat)
  | free

/-- The driver contract for the answers used by an operation. -/
def Op.WellBehaved : Op → Prop
  | .ensure _ _ drv _ => drv.WellBehaved
  | .free => True

/-- The node after an operation and the calls the operation made. -/
def Op.run : Op → MDKVideoTextureNodeImpl → MDKVideoTextureNodeImpl × List Call
  | .ensure physDev newDev drv size, n =>
      ((ensureTextureVulkan physDev newDev drv size n).2.1,
       (ensureTextureVulkan physDev newDev drv size n).2.2)
  | .free, n => freeTexture n

/-- The image a `vkCreateImage` call made during the operation creates: the
handle the driver writes when it answers `VK_SUCCESS`, none when it fails. -/
def Op.created : Op → Option Handle
  | .ensure _ _ drv _ => if drv.createImage = VK_SUCCESS then some drv.image else none
  | .free => none

/-- The device's book-keeping of the images created and not yet destroyed:
`vkCreateImage` adds the created image, `vkDestroyImage` removes its argument,
every other call leaves the list as it is. -/
def ledgerStep (created : Option Handle) (live : List Handle) : Call → List Handle
  | .vkCreateImage _ _ _ =>
      match created with
      | some image => image :: live
      | none => live
  | .vkDestroyImage _ image => live.erase image
  | _ => live

/-- The book-keeping along a list of calls: each call paired with the live
images just before it, and the live images after the last call. -/
def ledgerHistory (created : Option Handle) :
    List Handle → List Call → List (List Handle × Call) × List Handle
  | live, [] => ([], live)
  | live, c :: cs =>
      ((live, c) :: (ledgerHistory created (ledgerStep created live c) cs).1,
       (ledgerHistory created (ledgerStep created live c) cs).2)

/-- A run of operations from a node and a list of live images: the history of
all calls with the live images before each, the final node and the final live
images. -/
def runOps : List Op → MDKVideoTextureNodeImpl → List Handle →
    List (List Handle × Call) × MDKVideoTextureNodeImpl × List Handle
  | [], n, live => ([], n, live)
  | op :: ops, n, live =>
      ((ledgerHistory op.created live (op.run n).2).1 ++
         (runOps ops (op.run n).1 (ledgerHistory op.created live (op.run n).2).2).1,
       (runOps ops (op.run n).1 (ledgerHistory op.created live (op.run n).2).2).2)

/-- The live images agree with the node: the image it holds, if any. -/
def Agrees (n : MDKVideoTextureNodeImpl) (live : List Handle) : Prop :=
  live = if n.m_texture_vk = 0 then [] else [n.m_texture_vk]

/-- The condition on one history entry: at most one live image before the call,
and none when the call is `vkCreateImage`. -/
def EntryOk (e : List Handle × Call) : Prop :=
  e.1.length ≤ 1 ∧ ((∃ dev w h, e.2 = Call.vkCreateImage dev w h) → e.1 = [])

end MDKVideoTextureNodeImpl

end Vulkan

/-! ## The MDK texture node, all backends -/

namespace Texture

open Vulkan (Handle VkDriver)
open MDK (Ptr)

/-- The enumeration `QSGRendererInterface::GraphicsApi` (Qt 6). -/
inductive GraphicsApi
  | Unknown
  | Software
  | OpenVG
  | OpenGL
  | Direct3D11
  | Vulkan
  | Metal
  | Null
  deriving DecidableEq, Repr

/-- The enumeration `QSGSimpleTextureNode::TextureCoordinatesTransformFlag`. -/
inductive TextureCoordinatesTransformFlag
  | NoTransform
  | MirrorHorizontally
  | MirrorVertically
  deriving DecidableEq, Repr

/-- The compile-time switches the source branches on: `QT_CONFIG(opengl)`,
`Q_OS_WINDOWS`, `Q_OS_MACOS`, and `QT_CONFIG(vulkan)` with the Vulkan headers
present. The Qt version is 6. -/
structure BuildConfig where
  opengl : Bool
  windows : Bool
  macos : Bool
  vulkan : Bool
  deriving DecidableEq, Repr

/-- What the renderer interface and the graphics APIs answer during one
`ensureTexture`: the active API; for OpenGL the handle and the texture id of the
new framebuffer object; for Direct3D11 the device resource, the `HRESULT` of
`CreateTexture2D` and the texture it writes; for Metal the device, the new
texture and the command queue; for Vulkan the physical device, the device and
the driver's answers. -/
structure Host where
  graphicsApi : GraphicsApi
  fboHandle : Nat
  fboTexture : Nat
  d3dDevice : Ptr
  createTexture2D : Int
  d3dTexture : Handle
  mtlDevice : Ptr
  mtlTexture : Handle
  cmdQueue : Ptr
  physDev : Handle
  newDev : Handle
  drv : VkDriver

/-- A `QOpenGLFramebufferObject`. -/
structure Fbo where
  size : Nat × Nat
  handle : Nat
  texture : Nat
  deriving DecidableEq, Repr

/-- A `QSGTexture` made by `fromNative`: the native object it wraps and its size. -/
structure QSGTexture where
  native : Nat
  size : Nat × Nat
  deriving DecidableEq, Repr

/-- A call `ensureTexture` makes to a graphics API, the renderer interface, the
engine (`setRenderAPI`) or the item (`setRendererReady`). -/
inductive Effect
  | vk (c : Vulkan.Call)
  | newFramebufferObject (size : Nat × Nat)
  | setRenderAPI_GL (fbo : Nat)
  | getDeviceResource
  | createTexture2D (width height : Nat)
  | setRenderAPI_D3D11 (rtv : Handle)
  | newTextureWithDescriptor (width height : Nat)
  | getCommandQueueResource
  | setRenderAPI_Metal (texture : Handle) (device cmdQueue : Ptr)
  | setRendererReady (ready : Bool)
  deriving DecidableEq, Repr

/-- Whether the call registers a render target with the engine (`setRenderAPI`). -/
def Effect.isSetRenderAPI : Effect → Bool
  | .vk (.setRenderAPI _ _ _) => true
  | .setRenderAPI_GL _ => true
  | .setRenderAPI_D3D11 _ => true
  | .setRenderAPI_Metal _ _ _ => true
  | _ => false

/-- Whether the call is the readiness notification `setRendererReady`. -/
def Effect.isSetRendererReady : Effect → Bool
  | .vk (.setRendererReady _) => true
  | .setRendererReady _ => true
  | _ => false

/-- Whether the call requests a new native render target: `vkCreateImage`,
`new QOpenGLFramebufferObject`, `CreateTexture2D` or `newTextureWithDescriptor`,
whether or not the request succeeds. -/
def Effect.isAllocation : Effect → Bool
  | .vk (.vkCreateImage _ _ _) => true
  | .newFramebufferObject _ => true
  | .createTexture2D _ _ => true
  | .newTextureWithDescriptor _ _ => true
  | _ => false

/-- How a call ends: it returns a texture (none for `nullptr`), or `qFatal`
terminates the process. -/
inductive Outcome
  | returned (tex : Option QSGTexture)
  | fatal (message : String)
  deriving DecidableEq, Repr

/-- The object `MDKVideoTextureNodeImpl` with the members of its base class that
`ensureTexture` uses; `vk` holds the Vulkan members. -/
structure MDKNode where
  m_transformMode : TextureCoordinatesTransformFlag := .NoTransform
  m_window : Ptr
  m_item : Ptr
  fbo_gl : Option Fbo := none
  m_texture_d3d11 : Handle := 0
  m_texture_mtl : Handle := 0
  vk : Vulkan.MDKVideoTextureNodeImpl := {}
  deriving DecidableEq, Repr

/-- The result of `ensureTexture`: how it ends, the node afterwards and the
calls made. -/
structure Result where
  outcome : Outcome
  node : MDKNode
  effects : List Effect

/-- Method `MDKVideoTextureNodeImpl::ensureTexture` (Qt 6). -/
def ensureTexture (cfg : BuildConfig) (host : Host) (player : Ptr) (size : Nat × Nat)
    (n : MDKNode) : Result :=
  if player = 0 ∨ n.m_window = 0 then ⟨.returned none, n, []⟩
  else
    match host.graphicsApi with
    | .OpenGL =>
      if cfg.opengl then
        let n1 : MDKNode :=
          { n with m_transformMode := .MirrorVertically,
                   fbo_gl := some ⟨size, host.fboHandle, host.fboTexture⟩ }
        let t := [Effect.newFramebufferObject size, Effect.setRenderAPI_GL host.fboHandle,
                  Effect.setRendererReady true]
        if host.fboTexture ≠ 0 then ⟨.returned (some ⟨host.fboTexture, size⟩), n1, t⟩
        else ⟨.returned none, n1, t⟩
      else ⟨.fatal "Rebuild Qt with OpenGL support!", n, []⟩
    | .Direct3D11 =>
      if cfg.windows then
        if host.d3dDevice = 0 then ⟨.returned none, n, [Effect.getDeviceResource]⟩
        else if host.createTexture2D < 0 then
          ⟨.returned none, { n with m_texture_d3d11 := 0 },
           [Effect.getDeviceResource, Effect.createTexture2D size.1 size.2]⟩
        else
          let n1 : MDKNode := { n with m_texture_d3d11 := host.d3dTexture }
          let t := [Effect.getDeviceResource, Effect.createTexture2D size.1 size.2,
                    Effect.setRenderAPI_D3D11 host.d3dTexture, Effect.setRendererReady true]
          if host.d3dTexture ≠ 0 then ⟨.returned (some ⟨host.d3dTexture, size⟩), n1, t⟩
          else ⟨.returned none, n1, t⟩
      else ⟨.fatal "The Direct3D11 backend is only supported on Windows!", n, []⟩
    | .Metal =>
      if cfg.macos then
        let n1 : MDKNode := { n with m_texture_mtl := host.mtlTexture }
        let t := [Effect.getDeviceResource, Effect.newTextureWithDescriptor size.1 size.2,
                  Effect.getCommandQueueResource,
                  Effect.setRenderAPI_Metal host.mtlTexture host.mtlDevice host.cmdQueue,
                  Effect.setRendererReady true]
        if host.mtlTexture ≠ 0 then ⟨.returned (some ⟨host.mtlTexture, size⟩), n1, t⟩
        else ⟨.returned none, n1, t⟩
      else ⟨.fatal "The Metal backend is only supported on macOS!", n, []⟩
    | .Vulkan =>
      if cfg.vulkan then
        let r := Vulkan.MDKVideoTextureNodeImpl.ensureTextureVulkan host.physDev host.newDev
          host.drv size n.vk
        ⟨.returned (r.1.map (fun image => ⟨image, size⟩)), { n with vk := r.2.1 },
         r.2.2.map Effect.vk⟩
      else ⟨.fatal "Rebuild Qt with Vulkan support!", n, []⟩
    | .Software => ⟨.fatal "TO BE IMPLEMENTED: Software backend of MDK.", n, []⟩
    | _ => ⟨.fatal "Unsupported backend of MDK", n, []⟩

end Texture

/-! ## The mpv texture node -/

namespace MPV

open MDK (Ptr)
open Texture (GraphicsApi TextureCoordinatesTransformFlag BuildConfig)

/-- Function `qRound`, over exact rationals: round half away from zero. -/
def qRound (d : ℚ) : Int :=
  if 0 ≤ d then Rat.floor (d + 1 / 2) else -Rat.floor (-(d - 1 / 2))

/-- The item geometry `sync()` reads: the logical width and height of the item
and the effective device pixel ratio of the window. -/
structure Frame where
  itemWidth : ℚ
  itemHeight : ℚ
  dpr : ℚ

/-- The size `sync()` computes: `QSizeF(m_item->size() * dpr).toSize()`. -/
def Frame.newSize (fr : Frame) : Int × Int :=
  (qRound (fr.itemWidth * fr.dpr), qRound (fr.itemHeight * fr.dpr))

/-- The enumeration `QSGTexture::Filtering`. -/
inductive Filtering
  | None
  | Nearest
  | Linear
  deriving DecidableEq, Repr

/-- A `QOpenGLFramebufferObject`. -/
structure Fbo where
  size : Int × Int
  handle : Nat
  texture : Nat
  deriving DecidableEq, Repr

/-- A `QSGTexture` made by `fromNative`: the texture id it wraps and its size. -/
structure QSGTexture where
  native : Nat
  size : Int × Int
  deriving DecidableEq, Repr

/-- What the renderer interface, OpenGL and libmpv answer during one
`ensureTexture`: the active API, the handle and texture id of the new
framebuffer object, the result of `mpv_render_context_create` and the render
context it writes. -/
structure Host where
  graphicsApi : GraphicsApi
  fboHandle : Nat
  fboTexture : Nat
  createResult : Int
  renderContext : Ptr

/-- A call made by `sync()` or `ensureTexture`. -/
inductive Effect
  | ensureTexture (size : Int × Int)
  | newFramebufferObject (size : Int × Int)
  | mpv_render_context_create (mpv : Ptr)
  | mpv_render_context_set_update_callback (ctx : Ptr)
  | setRendererReady (ready : Bool)
  | deleteTexture (tex : Option QSGTexture)
  deriving DecidableEq, Repr

/-- How a call ends: it returns (for `ensureTexture` a texture, none for
`nullptr`), or `qFatal` terminates the process. -/
inductive Outcome
  | returned (tex : Option QSGTexture)
  | fatal (message : String)
  deriving DecidableEq, Repr

/-- The object `MPVVideoTextureNode`: its members, the fields `m_mpv` and
`m_mpv_gl` of the item it points to, and the texture, transform, filtering and
rectangle of the scene graph node it derives from. -/
structure MPVVideoTextureNode where
  m_item : Ptr
  m_window : Ptr
  m_mpv : Ptr
  m_mpv_gl : Ptr := 0
  m_size : Int × Int := (-1, -1)
  fbo_gl : Option Fbo := none
  texture : Option QSGTexture := none
  transform : TextureCoordinatesTransformFlag := .NoTransform
  filtering : Filtering := .Nearest
  rect : ℚ × ℚ × ℚ × ℚ := (0, 0, 0, 0)

/-- The result of a call: how it ends, the node afterwards and the calls made. -/
structure Result where
  outcome : Outcome
  node : MPVVideoTextureNode
  effects : List Effect

/-- Method `MPVVideoTextureNode::ensureTexture` (Qt 6); the argument `player` is
unused. -/
def ensureTexture (cfg : BuildConfig) (host : Host) (_player : Ptr) (size : Int × Int)
    (n : MPVVideoTextureNode) : Result :=
  if n.m_item = 0 ∨ n.m_window = 0 then ⟨.returned none, n, []⟩
  else if n.m_mpv = 0 then ⟨.returned none, n, []⟩
  else
    match host.graphicsApi with
    | .OpenGL =>
      if cfg.opengl then
        let n1 : MPVVideoTextureNode :=
          { n with fbo_gl := some ⟨size, host.fboHandle, host.fboTexture⟩ }
        let t1 := [Effect.newFramebufferObject size]
        if n1.m_mpv_gl = 0 then
          if host.createResult < 0 then
            ⟨.fatal "failed to initialize mpv GL context", n1,
             t1 ++ [Effect.mpv_render_context_create n1.m_mpv]⟩
          else
            let n2 : MPVVideoTextureNode := { n1 with m_mpv_gl := host.renderContext }
            let t2 := t1 ++ [Effect.mpv_render_context_create n1.m_mpv,
                             Effect.mpv_render_context_set_update_callback n2.m_mpv_gl,
                             Effect.setRendererReady true]
            if host.fboTexture ≠ 0 then ⟨.returned (some ⟨host.fboTexture, size⟩), n2, t2⟩
            else ⟨.returned none, n2, t2⟩
        else
          if host.fboTexture ≠ 0 then ⟨.returned (some ⟨host.fboTexture, size⟩), n1, t1⟩
          else ⟨.returned none, n1, t1⟩
      else ⟨.fatal "Rebuild Qt with OpenGL support!", n, []⟩
    | .Software => ⟨.fatal "TO BE IMPLEMENTED: Software backend of libmpv.", n, []⟩
    | _ => ⟨.fatal "Unsupported backend of libmpv", n, []⟩

/-- Method `MPVVideoTextureNode::sync`. The outcome is `returned none` when
`sync()` returns and `fatal` when `ensureTexture` terminated the process; the
call of `ensureTexture` is recorded with its size argument. -/
def sync (cfg : BuildConfig) (fr : Frame) (host : Host) (n : MPVVideoTextureNode) : Result :=
  if n.m_item = 0 ∨ n.m_window = 0 then ⟨.returned none, n, []⟩
  else
    let newSize := fr.newSize
    if n.texture ≠ none ∧ newSize = n.m_size then ⟨.returned none, n, []⟩
    else if n.m_mpv = 0 then ⟨.returned none, n, []⟩
    else
      let n1 : MPVVideoTextureNode := { n with m_size := newSize }
      let r := ensureTexture cfg host 0 n1.m_size n1
      match r.outcome with
      | .fatal message =>
          ⟨.fatal message, r.node, Effect.ensureTexture n1.m_size :: r.effects⟩
      | .returned none =>
          ⟨.returned none, r.node, Effect.ensureTexture n1.m_size :: r.effects⟩
      | .returned (some tex) =>
          ⟨.returned none,
           { r.node with texture := some tex, transform := .NoTransform, filtering := .Linear,
                         rect := (0, 0, fr.itemWidth, fr.itemHeight) },
           Effect.ensureTexture n1.m_size :: r.effects ++ [Effect.deleteTexture r.node.texture]⟩

end MPV

namespace Texture

open MDK (Ptr)

/-- One `ensureTexture` call in a run: the answers of the host, the engine handle
and the requested size. -/
structure EnsureCall where
  host : Host
  player : Ptr
  size : Nat × Nat

/-- The node after a run of `ensureTexture` calls; a call that ends in `qFatal`
ends the run. -/
def runEnsure (cfg : BuildConfig) : List EnsureCall → MDKNode → MDKNode
  | [], n => n
  | c :: cs, n =>
    match (ensureTexture cfg c.host c.player c.size n).outcome with
    | .fatal _ => (ensureTexture cfg c.host c.player c.size n).node
    | .returned _ => runEnsure cfg cs (ensureTexture cfg c.host c.player c.size n).node

end Texture

namespace MPV

open MDK (Ptr)
open Texture (BuildConfig)

/-- How `render()` ends: it returns at one of its null checks, it renders into
the framebuffer object with the render context, or it dereferences a null
`fbo_gl`. -/
inductive RenderOutcome
  | skipped
  | rendered (ctx : Ptr) (fbo : Fbo)
  | nullFramebuffer
  deriving DecidableEq, Repr

/-- Method `MPVVideoTextureNode::render`; it changes no member of the node. -/
def render (n : MPVVideoTextureNode) : RenderOutcome :=
  if n.m_item = 0 ∨ n.m_window = 0 then .skipped
  else if n.m_mpv = 0 ∨ n.m_mpv_gl = 0 then .skipped
  else
    match n.fbo_gl with
    | some fbo => .rendered n.m_mpv_gl fbo
    | none => .nullFramebuffer

/-- A call made on the node: `sync()` with the item geometry and the answers of
the host, or `render()`. -/
inductive NodeCall
  | sync (fr : Frame) (host : Host)
  | render

/-- The node after a run of calls; a `sync()` that ends in `qFatal` ends the
run. -/
def runCalls (cfg : BuildConfig) : List NodeCall → MPVVideoTextureNode → MPVVideoTextureNode
  | [], n => n
  | .render :: cs, n => runCalls cfg cs n
  | .sync fr host :: cs, n =>
    match (sync cfg fr host n).outcome with
    | .fatal _ => (sync cfg fr host n).node
    | .returned _ => runCalls cfg cs (sync cfg fr host n).node

end MPV

/-! ## Threads calling the wrappers -/

namespace MDK

namespace Concurrent

/-- Where a thread stands in a call-through wrapper: outside any wrapper; after
`QMutexLocker locker(&m_mutex)` and before the test of the slot; inside the
resolved native function; after the call or the default, with the locker still
alive. -/
inductive Pc
  | idle
  | locked (f : Api) (args : List Val)
  | inCall (f : Api) (args : List Val)
  | done
  deriving DecidableEq, Repr

/-- The threads and the mutex `m_mutex`: the thread that holds it, if any, and
where each thread stands. -/
structure Sys where
  owner : Option Nat
  pc : Nat → Pc

/-- One scheduling decision: thread `tid` takes its next step; `f` and `args`
are the wrapper and the arguments it calls when it is outside any wrapper. -/
structure Move where
  tid : Nat
  f : Api
  args : List Val

/-- No thread is in a wrapper and the mutex is free. -/
def Sys.init : Sys := ⟨none, fun _ => .idle⟩

/-- The next step of the scheduled thread through `WWX190_CALL_MDKAPI` or
`WWX190_CALL_MDKAPI_RETURN`: the locker takes the mutex when it is free and
waits otherwise; the slot is tested and called when set; the call returns; the
locker releases the mutex at the end of the wrapper. -/
def step (d : MDKData) (s : Sys) (m : Move) : Sys :=
  match s.pc m.tid with
  | .idle =>
    match s.owner with
    | none => { owner := some m.tid, pc := Function.update s.pc m.tid (.locked m.f m.args) }
    | some _ => s
  | .locked f args =>
    if d.m_lp f ≠ 0 then { s with pc := Function.update s.pc m.tid (.inCall f args) }
    else { s with pc := Function.update s.pc m.tid .done }
  | .inCall _ _ => { s with pc := Function.update s.pc m.tid .done }
  | .done => { owner := none, pc := Function.update s.pc m.tid .idle }

/-- An interleaving: the system after a list of scheduling decisions. -/
def run (d : MDKData) (moves : List Move) (s : Sys) : Sys :=
  moves.foldl (step d) s

/-- Whether a thread is inside a resolved native function. -/
def Pc.isInCall : Pc → Bool
  | .inCall _ _ => true
  | _ => false

end Concurrent

end MDK

/-! ## The player interface -/

namespace Player

/-- The struct `ChapterInfo`. -/
structure ChapterInfo where
  title : String
  startTime : Int
  endTime : Int
  deriving DecidableEq, Repr, Inhabited

/-- What `nextChapter()` and `previousChapter()` read from the player:
`isStopped()`, `chapters()` and `position()`. -/
structure MediaPlayer where
  isStopped : Bool
  chapters : List ChapterInfo
  position : Int

/-- The loop of `nextChapter()`: the iterations for the loop variable from
`count - 1` down to `0`, with the `seek` targets in call order. -/
def nextChapterLoop (ch : List ChapterInfo) (pos : Int) (total : Nat) : Nat → List Int
  | 0 => []
  | i + 1 =>
    (if pos < (ch.getD i default).startTime then []
     else if ((i : Int) + 1) ≤ (total : Int) - 1 then [(ch.getD (i + 1) default).startTime]
     else []) ++ nextChapterLoop ch pos total i

/-- Method `MediaPlayer::nextChapter`: the targets of the `seek` calls it makes,
in order. The loop variable starts at `total - 2`. -/
def nextChapter (p : MediaPlayer) : List Int :=
  if p.isStopped then []
  else if p.chapters.isEmpty then []
  else nextChapterLoop p.chapters p.position p.chapters.length (p.chapters.length - 1)

/-- The loop of `previousChapter()`: the iterations for the loop variable from
`count` down to `1`, with the `seek` targets in call order. -/
def previousChapterLoop (ch : List ChapterInfo) (pos : Int) : Nat → List Int
  | 0 => []
  | i + 1 =>
    (if pos < (ch.getD (i + 1) default).startTime then []
     else if 0 ≤ ((i : Int) + 1) - 1 then [(ch.getD i default).startTime]
     else []) ++ previousChapterLoop ch pos i

/-- Method `MediaPlayer::previousChapter`: the targets of the `seek` calls it
makes, in order. The loop variable starts at `total - 1` and stops before `0`. -/
def previousChapter (p : MediaPlayer) : List Int :=
  if p.isStopped then []
  else if p.chapters.isEmpty then []
  else previousChapterLoop p.chapters p.position (p.chapters.length - 1)

/-- A default-constructed `QSizeF`: the invalid size. -/
def invalidSize : ℚ × ℚ := (-1, -1)

/-- Method `MediaPlayer::recommendedWindowSize`, over exact rationals:
`pictureSize` is `videoSize()`, `hasWindow` tells whether `window()` is
non-null, `windowed` whether its visibility is `Windowed`, and `screen` is the
available size of the current screen, none when there is no screen. -/
def recommendedWindowSize (pictureSize : ℚ × ℚ) (hasWindow windowed : Bool)
    (screen : Option (Int × Int)) : ℚ × ℚ :=
  if pictureSize.1 ≤ 0 ∨ pictureSize.2 ≤ 0 then invalidSize
  else if !hasWindow then invalidSize
  else if !windowed then invalidSize
  else
    match screen with
    | none => invalidSize
    | some screenSize =>
      let widthGreater : Bool := decide (pictureSize.1 > (screenSize.1 : ℚ))
      let heightGreater : Bool := decide (pictureSize.2 > (screenSize.2 : ℚ))
      let zoomFactor : ℚ :=
        if widthGreater || heightGreater then
          let useWidth : Bool :=
            if widthGreater && heightGreater then decide (pictureSize.1 ≥ pictureSize.2)
            else if widthGreater then true
            else false
          if useWidth then (screenSize.1 : ℚ) / pictureSize.1
          else (screenSize.2 : ℚ) / pictureSize.2
        else 1
      (pictureSize.1 * zoomFactor, pictureSize.2 * zoomFactor)

/-- A `QVariantHash` as its entries in iteration order: the key and the string
the value converts to, none when the value cannot convert to a string. -/
abbrev QVariantHash := List (String × Option String)

/-- The step `if (result.endsWith(u'\n')) result.chop(1);`. -/
def chopNewline (result : String) : String :=
  if result.data.getLast? = some '\n' then ⟨result.data.dropLast⟩ else result

/-- Function `variantHashToString`. -/
def variantHashToString (hash : QVariantHash) : String :=
  if hash.isEmpty then ""
  else
    chopNewline (hash.foldl
      (fun result entry =>
        match entry.2 with
        | some value => result ++ (entry.1 ++ ": " ++ value ++ "\n")
        | none => result) "")

/-- Function `getMediaTracksSummary`. -/
def getMediaTracksSummary (title : String) (tracks : List QVariantHash) : String :=
  if title = "" ∨ tracks.isEmpty then ""
  else
    chopNewline (tracks.foldl
      (fun (acc : String × Nat) track =>
        (acc.1 ++ (title ++ " #" ++ toString acc.2 ++ "\n") ++ variantHashToString track,
         acc.2 + 1)) ("", 1)).1

end Player

/-! ## Sample inputs -/

namespace MDK

/-- The default each value-returning wrapper passes as `defVal`; `Val.unit` for
a void wrapper. -/
def defVal (MDK_VERSION : Int) : Api → Val
  | .MDK_javaVM => .ptr 0
  | .MDK_logLevel => .logLevel .MDK_LogLevel_Debug
  | .MDK_getGlobalOptionString => .bool false
  | .MDK_getGlobalOptionInt32 => .bool false
  | .MDK_getGlobalOptionPtr => .bool false
  | .MDK_strdup => .ptr 0
  | .MDK_version => .int MDK_VERSION
  | .MDK_AudioStreamMetadata => .bool false
  | .MDK_VideoStreamMetadata => .bool false
  | .MDK_MediaMetadata => .bool false
  | .mdkPlayerAPI_new => .ptr 0
  | .mdkVideoFrameAPI_new => .ptr 0
  | _ => .unit

/-- Two libraries: `"A"` exports only `MDK_javaVM` (at address 161), `"B"`
exports every entry point except `MDK_javaVM` (at addresses 2001 ..). No other
file name opens; unloading always succeeds. -/
def sampleEnv : LibEnv where
  opens := fun p => p = "A" || p = "B"
  symbol := fun p f =>
    if p = "A" then (if f = .MDK_javaVM then 161 else 0)
    else if p = "B" then (if f = .MDK_javaVM then 0 else 2000 + f.toCtorIdx)
    else 0
  unloads := fun _ => true

/-- A library `"full"` exporting every entry point (at addresses 3000 ..), and
a library `"most"` exporting every entry point except `MDK_strdup`; `"mdk"`
and `"mdk-0"` do not open. -/
def fullEnv : LibEnv where
  opens := fun p => p = "full" || p = "most"
  symbol := fun p f =>
    if p = "full" then 3000 + f.toCtorIdx
    else if p = "most" then (if f = .MDK_strdup then 0 else 4000 + f.toCtorIdx)
    else 0
  unloads := fun _ => true

/-- An engine whose every function returns the integer `0x00010203`. -/
def sampleEngine : Engine := fun _ _ => .int 0x00010203

/-- The file names given to `QLibrary::load`, in call order. -/
def loadAttempts (t : List Event) : List String :=
  t.filterMap (fun e => match e with
    | .libLoad path => some path
    | _ => none)

/-- The segments of the environment variable the constructor appends. -/
def envSegments (rawFileNames : String) : List String :=
  ((rawFileNames.data.splitOn ';').filter (fun seg => seg ≠ [])).map String.mk

end MDK

namespace Vulkan

/-- A driver on which every call succeeds; the image needs 64 bytes from
memory type 0 or 1, and the device has two memory types. -/
def sampleDriver : VkDriver where
  createImage := VK_SUCCESS
  image := 5
  memReqSize := 64
  memoryTypeBits := 3
  memoryTypeCount := 2
  allocateMemory := VK_SUCCESS
  memory := 9
  bindImageMemory := VK_SUCCESS

end Vulkan

namespace MDK

/-- A library `"full"` exporting every entry point (at addresses 3000 ..) whose
unloading always fails. -/
def stickyEnv : LibEnv where
  opens := fun p => p = "full"
  symbol := fun p f => if p = "full" then 3000 + f.toCtorIdx else 0
  unloads := fun _ => false

end MDK

namespace Vulkan

/-- A driver on which `vkCreateImage` succeeds (image 6) and `vkAllocateMemory`
fails with `VK_ERROR_OUT_OF_DEVICE_MEMORY` (-2). -/
def outOfMemoryDriver : VkDriver where
  createImage := VK_SUCCESS
  image := 6
  memReqSize := 64
  memoryTypeBits := 3
  memoryTypeCount := 2
  allocateMemory := -2
  memory := 0
  bindImageMemory := VK_SUCCESS

/-- A driver on which `vkCreateImage` fails with `VK_ERROR_OUT_OF_HOST_MEMORY`
(-1). -/
def noImageDriver : VkDriver where
  createImage := -1
  image := 0
  memReqSize := 0
  memoryTypeBits := 0
  memoryTypeCount := 0
  allocateMemory := VK_SUCCESS
  memory := 0
  bindImageMemory := VK_SUCCESS

end Vulkan

namespace Texture

/-- A build with every backend compiled in. -/
def allBackends : BuildConfig := ⟨true, true, true, true⟩

/-- A host on which every call succeeds, for a given active API. -/
def sampleHost (api : GraphicsApi) : Host where
  graphicsApi := api
  fboHandle := 3
  fboTexture := 4
  d3dDevice := 10
  createTexture2D := 0
  d3dTexture := 11
  mtlDevice := 20
  mtlTexture := 21
  cmdQueue := 22
  physDev := 1
  newDev := 2
  drv := Vulkan.sampleDriver

/-- A Vulkan host whose driver runs out of device memory in `vkAllocateMemory`. -/
def outOfMemoryHost : Host :=
  { sampleHost .Vulkan with drv := Vulkan.outOfMemoryDriver }

/-- A Vulkan host whose driver fails in `vkCreateImage`. -/
def noImageHost : Host :=
  { sampleHost .Vulkan with drv := Vulkan.noImageDriver }

/-- A Direct3D11 host on which `CreateTexture2D` fails with `E_OUTOFMEMORY`. -/
def failingD3DHost : Host :=
  { sampleHost .Direct3D11 with createTexture2D := -2147024882, d3dTexture := 0 }

/-- A node with a window and an item. -/
def sampleNode : MDKNode := { m_window := 1, m_item := 1 }

end Texture

namespace MPV

/-- Whether the call requests a new native render target:
`new QOpenGLFramebufferObject`. -/
def Effect.isAllocation : Effect → Bool
  | .newFramebufferObject _ => true
  | _ => false

/-- A host on which every call succeeds, for a given active API. -/
def sampleHost (api : Texture.GraphicsApi) : Host :=
  ⟨api, 3, 4, 0, 9⟩

/-- An OpenGL host whose new framebuffer object has no texture (id 0). -/
def noTextureHost : Host :=
  ⟨.OpenGL, 5, 0, 0, 9⟩

/-- A fresh node with an item, a window and an mpv handle. -/
def sampleNode : MPVVideoTextureNode := { m_item := 1, m_window := 1, m_mpv := 1 }

/-- An item of 640 x 360 logical pixels at device pixel ratio 2. -/
def frameA : Frame := ⟨640, 360, 2⟩

/-- An item of 800 x 600 logical pixels at device pixel ratio 2. -/
def frameB : Frame := ⟨800, 600, 2⟩

end MPV

namespace MPV

/-- A fresh node whose item already has an mpv handle and a render context
(address 9). -/
def contextNode : MPVVideoTextureNode := { m_item := 1, m_window := 1, m_mpv := 1, m_mpv_gl := 9 }

end MPV

namespace Player

/-- Three chapters starting at 0, 10 and 20. -/
def sampleChapters : List ChapterInfo :=
  [⟨"one", 0, 10⟩, ⟨"two", 10, 20⟩, ⟨"three", 20, 30⟩]

/-- Two video tracks with one entry each. -/
def sampleTracks : List QVariantHash :=
  [[("codec", some "h264")], [("codec", some "hevc")]]

end Player

/-! ## The engine binding: general facts -/

namespace MDK

namespace MDKData

theorem mem_apiTable (f : Api) : f ∈ apiTable := by
  cases f <;> simp [apiTable]

theorem isLoaded_eq_true_iff (d : MDKData) : d.isLoaded = true ↔ ∀ f : Api, d.m_lp f ≠ 0 := by
  constructor
  · intro h f
    simp only [isLoaded, WWX190_NOTNULL_MDKAPI, Bool.and_eq_true, bne_iff_ne] at h
    cases f <;> tauto
  · intro h
    simp only [isLoaded, WWX190_NOTNULL_MDKAPI, Bool.and_eq_true, bne_iff_ne]
    simp [h]

theorem isLoaded_eq_false_of_null (d : MDKData) (f : Api) (h : d.m_lp f = 0) :
    d.isLoaded = false := by
  cases hl : d.isLoaded
  · rfl
  · exact absurd h ((isLoaded_eq_true_iff d).1 hl f)

theorem foldl_setnull_library (l : List Api) (d : MDKData) :
    (l.foldl (fun acc f => WWX190_SETNULL_MDKAPI f acc) d).m_library = d.m_library := by
  induction l generalizing d with
  | nil => rfl
  | cons g l ih =>
    rw [List.foldl_cons, ih]
    unfold WWX190_SETNULL_MDKAPI
    split <;> rfl

theorem foldl_setnull_lp (l : List Api) (d : MDKData) (f : Api) :
    (l.foldl (fun acc f => WWX190_SETNULL_MDKAPI f acc) d).m_lp f =
      if f ∈ l then 0 else d.m_lp f := by
  induction l generalizing d with
  | nil => simp
  | cons g l ih =>
    rw [List.foldl_cons, ih]
    unfold WWX190_SETNULL_MDKAPI
    by_cases hfl : f ∈ l
    · simp [hfl]
    · by_cases hfg : f = g
      · subst hfg
        by_cases h0 : d.m_lp f = 0
        · simp [hfl, h0]
        · simp [hfl, h0]
      · by_cases h0 : d.m_lp g = 0
        · simp [hfl, hfg, h0]
        · simp [hfl, hfg, h0, Function.update_noteq hfg]

theorem foldl_resolve_library (env : LibEnv) (l : List Api) (d : MDKData) :
    (l.foldl (fun acc f => WWX190_RESOLVE_MDKAPI env f acc) d).m_library = d.m_library := by
  induction l generalizing d with
  | nil => rfl
  | cons g l ih =>
    rw [List.foldl_cons, ih]
    unfold WWX190_RESOLVE_MDKAPI
    split <;> rfl

theorem foldl_resolve_lp (env : LibEnv) (l : List Api) (d : MDKData) (f : Api) :
    (l.foldl (fun acc f => WWX190_RESOLVE_MDKAPI env f acc) d).m_lp f =
      if f ∈ l ∧ d.m_lp f = 0 then d.m_library.resolve env f else d.m_lp f := by
  induction l generalizing d with
  | nil => simp
  | cons g l ih =>
    rw [List.foldl_cons, ih]
    have hlib : (WWX190_RESOLVE_MDKAPI env g d).m_library = d.m_library := by
      unfold WWX190_RESOLVE_MDKAPI
      split <;> rfl
    rw [hlib]
    by_cases hfg : f = g
    · subst hfg
      by_cases h0 : d.m_lp f = 0
      · have h1 : (WWX190_RESOLVE_MDKAPI env f d).m_lp f = d.m_library.resolve env f := by
          simp [WWX190_RESOLVE_MDKAPI, h0]
        rw [h1]
        simp [h0]
      · have h1 : (WWX190_RESOLVE_MDKAPI env f d).m_lp f = d.m_lp f := by
          simp [WWX190_RESOLVE_MDKAPI, h0]
        rw [h1]
        simp [h0]
    · have h1 : (WWX190_RESOLVE_MDKAPI env g d).m_lp f = d.m_lp f := by
        unfold WWX190_RESOLVE_MDKAPI
        split
        · simp [Function.update_noteq hfg]
        · rfl
      rw [h1]
      simp [hfg]

theorem unload_lp (env : LibEnv) (d : MDKData) (f : Api) : (unload env d).2.1.m_lp f = 0 := by
  have h := foldl_setnull_lp apiTable d f
  simp only [mem_apiTable, if_true] at h
  unfold unload
  generalize List.foldl (fun acc f => WWX190_SETNULL_MDKAPI f acc) d apiTable = d1 at h ⊢
  dsimp only
  split
  · split <;> exact h
  · exact h

theorem unload_events (env : LibEnv) (d : MDKData) :
    (unload env d).2.2 = if d.m_library.loaded then [Event.libUnload] else [] := by
  unfold unload
  dsimp only
  rw [foldl_setnull_library]
  unfold QLibrary.isLoaded
  cases d.m_library.loaded
  · simp
  · simp only [if_true]
    split <;> rfl

theorem unload_result (env : LibEnv) (d : MDKData) :
    (unload env d).1 = false ↔
      d.m_library.loaded = true ∧ (d.m_library.unload env).1 = false := by
  unfold unload
  dsimp only
  rw [foldl_setnull_library]
  unfold QLibrary.isLoaded
  cases hl : d.m_library.loaded
  · simp
  · simp only [if_true, true_and]
    cases hu : (d.m_library.unload env).1 <;> simp

theorem unload_library (env : LibEnv) (d : MDKData) :
    (unload env d).2.1.m_library =
      if d.m_library.loaded then (d.m_library.unload env).2 else d.m_library := by
  unfold unload
  dsimp only
  rw [foldl_setnull_library]
  unfold QLibrary.isLoaded
  cases hl : d.m_library.loaded
  · simp [foldl_setnull_library]
  · simp only [if_true]
    split <;> rfl

theorem load_opens (env : LibEnv) (path : String) (d : MDKData) (hp : path ≠ "")
    (hd : d.isLoaded = false) (ho : env.opens path = true) :
    (load env path d).1 = true ∧
    (load env path d).2.1.m_library = { fileName := path, loaded := true } ∧
    (∀ f, (load env path d).2.1.m_lp f = if d.m_lp f = 0 then env.symbol path f else d.m_lp f) ∧
    (load env path d).2.2 = [Event.libUnload, Event.libSetFileName path, Event.libLoad path] := by
  unfold load
  simp only [hp, hd, if_false, Bool.false_eq_true, Bool.not_true, QLibrary.setFileName,
    QLibrary.load, ho, if_true, List.nil_append]
  refine ⟨trivial, ?_, ?_, trivial⟩
  · rw [foldl_resolve_library]
  · intro f
    rw [foldl_resolve_lp]
    simp [mem_apiTable, QLibrary.resolve]

theorem load_fails (env : LibEnv) (path : String) (d : MDKData) (hp : path ≠ "")
    (hd : d.isLoaded = false) (ho : env.opens path = false) :
    (load env path d).1 = false ∧
    (load env path d).2.1.m_library = { fileName := path, loaded := false } ∧
    (load env path d).2.1.m_lp = d.m_lp ∧
    (load env path d).2.2 = [Event.libUnload, Event.libSetFileName path, Event.libLoad path] := by
  unfold load
  simp [hp, hd, QLibrary.setFileName, QLibrary.load, ho]

theorem load_from_loaded (env : LibEnv) (path : String) (d : MDKData) (hp : path ≠ "")
    (hd : d.isLoaded = true)
    (hu : d.m_library.loaded = true → env.unloads d.m_library.fileName = true)
    (ho : env.opens path = true) :
    (load env path d).1 = true ∧
    (load env path d).2.1.m_library = { fileName := path, loaded := true } ∧
    (∀ f, (load env path d).2.1.m_lp f = env.symbol path f) := by
  have hres : (unload env d).1 = true := by
    cases hr : (unload env d).1
    · rw [unload_result] at hr
      obtain ⟨hl, hfail⟩ := hr
      simp [QLibrary.unload, hl, hu hl] at hfail
    · rfl
  have hnull := unload_lp env d
  unfold load
  simp only [hp, hd, if_false, if_true, hres, Bool.not_true, Bool.false_eq_true,
    QLibrary.setFileName, QLibrary.load, ho]
  refine ⟨trivial, ?_, ?_⟩
  · rw [foldl_resolve_library]
  · intro f
    rw [foldl_resolve_lp]
    simp [mem_apiTable, QLibrary.resolve, hnull f]

end MDKData

theorem callThrough_null (MDK_VERSION : Int) (eng : Engine) (d : MDKData) (f : Api)
    (args : List Val) (h : d.m_lp f = 0) :
    callThrough MDK_VERSION eng d f args = (defVal MDK_VERSION f, d, []) := by
  cases f <;> simp [callThrough, WWX190_CALL_MDKAPI, WWX190_CALL_MDKAPI_RETURN, defVal, h]

theorem callThrough_events_of_set (MDK_VERSION : Int) (eng : Engine) (d : MDKData) (f : Api)
    (args : List Val) (h : d.m_lp f ≠ 0) :
    (callThrough MDK_VERSION eng d f args).2.2 = [Event.nativeCall (d.m_lp f) args] := by
  cases f <;> simp [callThrough, WWX190_CALL_MDKAPI, WWX190_CALL_MDKAPI_RETURN, h]

/-! ## The engine binding: the claims -/

/-- C1: there are 22 entry points; `isLoaded()` is true exactly when every slot
is non-null; it is false in the initial all-null state and in every state where
one slot is null and the other 21 are set. -/
theorem isLoaded_iff_all_slots_set (d : MDKData) :
    Fintype.card Api = 22 ∧ apiTable.length = 22 ∧
    (d.isLoaded = true ↔ ∀ f : Api, d.m_lp f ≠ 0) ∧
    MDKData.init.isLoaded = false ∧
    (∀ f0 : Api, d.m_lp f0 = 0 → (∀ f, f ≠ f0 → d.m_lp f ≠ 0) → d.isLoaded = false) := by
  refine ⟨rfl, rfl, MDKData.isLoaded_eq_true_iff d, rfl, ?_⟩
  intro f0 h0 _
  exact MDKData.isLoaded_eq_false_of_null d f0 h0

/-- C1 at a concrete input: after loading `"most"`, which lacks only
`MDK_strdup`, `isLoaded()` is false. -/
theorem isLoaded_iff_all_slots_set_witness :
    (MDKData.load fullEnv "most" MDKData.init).2.1.isLoaded = false :=
  (isLoaded_iff_all_slots_set (MDKData.load fullEnv "most" MDKData.init).2.1).2.2.2.2
    .MDK_strdup (by decide) (by intro f hf; cases f <;> first | exact absurd rfl hf | decide)

/-- C2, at the failing input: `"A"` exports only `MDK_javaVM`, `"B"` exports
everything else. After `load("A")` and then `load("B")`, both returning true,
the library object refers to `"B"`, yet the slot of `MDK_javaVM` still holds the
address 161 resolved from `"A"` although `"B"` lacks the symbol, and
`isLoaded()` reports true. -/
theorem load_keeps_pointer_of_previous_library :
    (MDKData.load sampleEnv "A" MDKData.init).1 = true ∧
    (MDKData.load sampleEnv "B" (MDKData.load sampleEnv "A" MDKData.init).2.1).1 = true ∧
    (MDKData.load sampleEnv "B" (MDKData.load sampleEnv "A" MDKData.init).2.1).2.1.m_library
      = { fileName := "B", loaded := true } ∧
    sampleEnv.symbol "B" .MDK_javaVM = 0 ∧
    sampleEnv.symbol "A" .MDK_javaVM = 161 ∧
    (MDKData.load sampleEnv "B" (MDKData.load sampleEnv "A" MDKData.init).2.1).2.1.m_lp
      .MDK_javaVM = 161 ∧
    (MDKData.load sampleEnv "B" (MDKData.load sampleEnv "A" MDKData.init).2.1).2.1.isLoaded
      = true := by
  decide

/-- C3, at the failing input: after `load("A")` (which exports only
`MDK_javaVM`), `load("nope")` fails to open and returns false, the library is
not loaded, yet the slot of `MDK_javaVM` still holds the address 161, and the
wrapper `MDK_javaVM` calls that address instead of returning its default. -/
theorem failed_load_keeps_pointer_of_previous_library :
    sampleEnv.opens "nope" = false ∧
    (MDKData.load sampleEnv "nope" (MDKData.load sampleEnv "A" MDKData.init).2.1).1 = false ∧
    (MDKData.load sampleEnv "nope" (MDKData.load sampleEnv "A" MDKData.init).2.1).2.1.m_library
      = { fileName := "nope", loaded := false } ∧
    (MDKData.load sampleEnv "nope" (MDKData.load sampleEnv "A" MDKData.init).2.1).2.1.m_lp
      .MDK_javaVM = 161 ∧
    (callThrough 0 sampleEngine
      (MDKData.load sampleEnv "nope" (MDKData.load sampleEnv "A" MDKData.init).2.1).2.1
      .MDK_javaVM [Val.ptr 7]).2.2 = [Event.nativeCall 161 [Val.ptr 7]] := by
  decide

/-- C4: from the all-null state, loading a library that exports every entry
point except `f0` returns true, leaves the slot of `f0` null and `isLoaded()`
false; the wrapper of `f0` returns its default and calls nothing, and the
wrapper of every other entry point calls the address the library exports. -/
theorem load_with_one_symbol_missing (env : LibEnv) (path : String) (d : MDKData) (f0 : Api)
    (MDK_VERSION : Int) (eng : Engine) (args : List Val)
    (hp : path ≠ "") (hnull : ∀ f, d.m_lp f = 0) (ho : env.opens path = true)
    (h0 : env.symbol path f0 = 0) (hrest : ∀ f, f ≠ f0 → env.symbol path f ≠ 0) :
    (MDKData.load env path d).1 = true ∧
    (MDKData.load env path d).2.1.m_lp f0 = 0 ∧
    (MDKData.load env path d).2.1.isLoaded = false ∧
    callThrough MDK_VERSION eng (MDKData.load env path d).2.1 f0 args
      = (defVal MDK_VERSION f0, (MDKData.load env path d).2.1, []) ∧
    (∀ f, f ≠ f0 →
      (MDKData.load env path d).2.1.m_lp f = env.symbol path f ∧
      (callThrough MDK_VERSION eng (MDKData.load env path d).2.1 f args).2.2
        = [Event.nativeCall (env.symbol path f) args]) := by
  have hd : d.isLoaded = false := MDKData.isLoaded_eq_false_of_null d f0 (hnull f0)
  obtain ⟨h1, _, h3, _⟩ := MDKData.load_opens env path d hp hd ho
  have hslot : ∀ f, (MDKData.load env path d).2.1.m_lp f = env.symbol path f := by
    intro f
    rw [h3 f]
    simp [hnull f]
  have hf0 : (MDKData.load env path d).2.1.m_lp f0 = 0 := by rw [hslot, h0]
  refine ⟨h1, hf0, MDKData.isLoaded_eq_false_of_null _ f0 hf0,
    callThrough_null _ _ _ _ _ hf0, ?_⟩
  intro f hf
  have hne : (MDKData.load env path d).2.1.m_lp f ≠ 0 := by
    rw [hslot]
    exact hrest f hf
  refine ⟨hslot f, ?_⟩
  rw [callThrough_events_of_set _ _ _ _ _ hne, hslot]

/-- C4 at a concrete input: the library `"most"` lacks only `MDK_strdup`. -/
theorem load_with_one_symbol_missing_witness :
    (MDKData.load fullEnv "most" MDKData.init).1 = true ∧
    (MDKData.load fullEnv "most" MDKData.init).2.1.m_lp .MDK_strdup = 0 ∧
    (MDKData.load fullEnv "most" MDKData.init).2.1.isLoaded = false ∧
    callThrough 0 sampleEngine (MDKData.load fullEnv "most" MDKData.init).2.1 .MDK_strdup
        [Val.ptr 7]
      = (defVal 0 .MDK_strdup, (MDKData.load fullEnv "most" MDKData.init).2.1, []) ∧
    (∀ f, f ≠ Api.MDK_strdup →
      (MDKData.load fullEnv "most" MDKData.init).2.1.m_lp f = fullEnv.symbol "most" f ∧
      (callThrough 0 sampleEngine (MDKData.load fullEnv "most" MDKData.init).2.1 f
          [Val.ptr 7]).2.2
        = [Event.nativeCall (fullEnv.symbol "most" f) [Val.ptr 7]]) :=
  load_with_one_symbol_missing fullEnv "most" MDKData.init .MDK_strdup 0 sampleEngine
    [Val.ptr 7] (by decide) (fun _ => rfl) (by decide) (by decide)
    (by intro f hf; cases f <;> first | exact absurd rfl hf | decide)

/-- C5 as stated fails for `MDK_version`: with its entry point unresolved the
wrapper returns the integer constant `MDK_VERSION` (here 66051), which is
neither a null pointer, nor `false`, nor a value of an enumeration. -/
theorem MDK_version_default_is_version_constant :
    MDKData.init.m_lp .MDK_version = 0 ∧
    returnsValue .MDK_version = true ∧
    (callThrough 66051 sampleEngine MDKData.init .MDK_version []).1 = Val.int 66051 ∧
    (callThrough 66051 sampleEngine MDKData.init .MDK_version []).1.isNullFalseOrEnum = false := by
  decide

/-- C5, amended: with its entry point unresolved a wrapper calls nothing, leaves
the binding unchanged and returns a fixed default (independent of the engine,
the binding and the arguments): nothing for a void wrapper, and for a
value-returning one a null pointer, `false`, a value of an enumeration, or, for
`MDK_version`, the compile-time constant `MDK_VERSION`. -/
theorem callThrough_unresolved (MDK_VERSION : Int) (eng : Engine) (d : MDKData) (f : Api)
    (args : List Val) (h : d.m_lp f = 0) :
    (callThrough MDK_VERSION eng d f args).2.2 = [] ∧
    (callThrough MDK_VERSION eng d f args).2.1 = d ∧
    (callThrough MDK_VERSION eng d f args).1 = defVal MDK_VERSION f ∧
    (returnsValue f = false → defVal MDK_VERSION f = Val.unit) ∧
    (returnsValue f = true →
      (defVal MDK_VERSION f).isNullFalseOrEnum = true ∨
      (f = .MDK_version ∧ defVal MDK_VERSION f = Val.int MDK_VERSION)) := by
  rw [callThrough_null MDK_VERSION eng d f args h]
  refine ⟨rfl, rfl, rfl, ?_, ?_⟩
  · cases f <;> simp [returnsValue, defVal]
  · cases f <;> simp [returnsValue, defVal, Val.isNullFalseOrEnum]

/-- C5, amended, at a concrete input: the wrapper `MDK_logLevel` on the initial
binding. -/
theorem callThrough_unresolved_witness :
    (callThrough 66051 sampleEngine MDKData.init .MDK_logLevel []).2.2 = [] ∧
    (callThrough 66051 sampleEngine MDKData.init .MDK_logLevel []).2.1 = MDKData.init ∧
    (callThrough 66051 sampleEngine MDKData.init .MDK_logLevel []).1
      = defVal 66051 .MDK_logLevel ∧
    (returnsValue .MDK_logLevel = false → defVal 66051 .MDK_logLevel = Val.unit) ∧
    (returnsValue .MDK_logLevel = true →
      (defVal 66051 .MDK_logLevel).isNullFalseOrEnum = true ∨
      (Api.MDK_logLevel = .MDK_version ∧ defVal 66051 .MDK_logLevel = Val.int 66051)) :=
  callThrough_unresolved 66051 sampleEngine MDKData.init .MDK_logLevel [] rfl

/-- C6: after `unload()` every slot is null, whatever it returns; it returns
false exactly when the library was loaded and `QLibrary::unload` fails; when the
library is loaded it is unloaded once; when the library is not loaded, `unload()`
returns true without calling `QLibrary::unload`, and on a binding whose slots
are all null it changes nothing. -/
theorem unload_clears_every_slot (env : LibEnv) (d : MDKData) :
    (∀ f, (MDKData.unload env d).2.1.m_lp f = 0) ∧
    ((MDKData.unload env d).1 = false ↔
      d.m_library.loaded = true ∧ env.unloads d.m_library.fileName = false) ∧
    (d.m_library.loaded = true → (MDKData.unload env d).2.2 = [Event.libUnload]) ∧
    (d.m_library.loaded = false →
      (MDKData.unload env d).1 = true ∧ (MDKData.unload env d).2.2 = [] ∧
      (MDKData.unload env d).2.1.m_library = d.m_library) ∧
    (d.m_library.loaded = false → (∀ f, d.m_lp f = 0) → (MDKData.unload env d).2.1 = d) := by
  have hres := MDKData.unload_result env d
  have hev := MDKData.unload_events env d
  have hlib := MDKData.unload_library env d
  refine ⟨MDKData.unload_lp env d, ?_, ?_, ?_, ?_⟩
  · rw [hres]
    constructor
    · rintro ⟨hl, hu⟩
      refine ⟨hl, ?_⟩
      simp only [QLibrary.unload, hl, if_true] at hu
      by_contra hne
      simp only [Bool.not_eq_false] at hne
      simp [hne] at hu
    · rintro ⟨hl, hu⟩
      exact ⟨hl, by simp [QLibrary.unload, hl, hu]⟩
  · intro hl
    rw [hev, hl]
    rfl
  · intro hl
    refine ⟨?_, ?_, ?_⟩
    · cases hr : (MDKData.unload env d).1
      · rw [hres] at hr
        rw [hl] at hr
        exact absurd hr.1 (by decide)
      · rfl
    · rw [hev, hl]
      rfl
    · rw [hlib, hl]
      rfl
  · intro hl hnull
    apply MDKData.ext
    · funext f
      rw [MDKData.unload_lp, hnull f]
    · rw [hlib, hl]
      rfl

/-- C6 at a concrete input: `unload()` on the initial binding changes nothing,
returns true and does not call `QLibrary::unload`. -/
theorem unload_clears_every_slot_witness :
    (MDKData.unload fullEnv MDKData.init).2.1 = MDKData.init ∧
    (MDKData.unload fullEnv MDKData.init).1 = true ∧
    (MDKData.unload fullEnv MDKData.init).2.2 = [] :=
  ⟨(unload_clears_every_slot fullEnv MDKData.init).2.2.2.2 rfl (fun _ => rfl),
   ((unload_clears_every_slot fullEnv MDKData.init).2.2.2.1 rfl).1,
   ((unload_clears_every_slot fullEnv MDKData.init).2.2.2.1 rfl).2.1⟩

theorem ldiff_255 (m : Nat) : Nat.ldiff 255 m = 255 - m % 256 := by
  apply Nat.eq_of_testBit_eq
  intro i
  have hlt : m % 2 ^ 8 < 2 ^ 8 := Nat.mod_lt _ (by norm_num)
  have h2 : 255 - m % 256 = 2 ^ 8 - (m % 2 ^ 8 + 1) := by norm_num; omega
  have h255 : Nat.testBit 255 i = decide (i < 8) := Nat.testBit_two_pow_sub_one 8 i
  rw [Nat.testBit_ldiff, h2, Nat.testBit_two_pow_sub_succ hlt, Nat.testBit_mod_two_pow, h255]
  by_cases hi : i < 8 <;> simp [hi]

theorem land_255 (x : Int) : Int.land x 255 = x % 256 := by
  cases x with
  | ofNat m =>
    show ((m &&& 255 : Nat) : Int) = _
    have : m &&& 255 = m % 256 := Nat.and_pow_two_sub_one_eq_mod m 8
    rw [this]
    rfl
  | negSucc m =>
    show ((Nat.ldiff 255 m : Nat) : Int) = _
    rw [ldiff_255, Int.negSucc_eq]
    omega

theorem toString_of_nonneg (x : Int) (h : 0 ≤ x) : toString x = toString x.toNat := by
  cases x with
  | ofNat m => rfl
  | negSucc m => exact absurd h (by simp [Int.negSucc_not_nonneg])

theorem getMDKVersion_eq (MDK_VERSION : Int) (eng : Engine) (d : MDKData) (v : Int)
    (hset : d.m_lp .MDK_version ≠ 0) (hv : eng (d.m_lp .MDK_version) [] = Val.int v) :
    getMDKVersion MDK_VERSION eng d =
      toString (Int.land (v >>> (16 : Nat)) 0xff) ++ "." ++
      toString (Int.land (v >>> (8 : Nat)) 0xff) ++ "." ++ toString (Int.land v 0xff) := by
  simp [getMDKVersion, callThrough, WWX190_CALL_MDKAPI_RETURN, hset, hv, Val.toInt]

/-- C7: when the version entry point returns the integer `v`, `getMDKVersion()`
is the decimal renderings of `(v >> 16) & 0xff`, `(v >> 8) & 0xff` and
`v & 0xff` joined by dots; these are bits 16-23, 8-15 and 0-7 of `v`, each in
0..255; a value agreeing with `v` on bits 0-23 gives the same text; and
`0x00010203` gives `"1.2.3"`. -/
theorem getMDKVersion_unpacks (MDK_VERSION : Int) (eng : Engine) (d : MDKData) (v : Int)
    (hset : d.m_lp .MDK_version ≠ 0) (hv : eng (d.m_lp .MDK_version) [] = Val.int v) :
    getMDKVersion MDK_VERSION eng d =
      toString (Int.land (v >>> (16 : Nat)) 0xff) ++ "." ++
      toString (Int.land (v >>> (8 : Nat)) 0xff) ++ "." ++ toString (Int.land v 0xff) ∧
    getMDKVersion MDK_VERSION eng d =
      toString (v / 2 ^ 16 % 256).toNat ++ "." ++ toString (v / 2 ^ 8 % 256).toNat ++ "." ++
      toString (v % 256).toNat ∧
    (v / 2 ^ 16 % 256).toNat ≤ 255 ∧ (v / 2 ^ 8 % 256).toNat ≤ 255 ∧ (v % 256).toNat ≤ 255 ∧
    (∀ (eng2 : Engine) (w : Int), eng2 (d.m_lp .MDK_version) [] = Val.int w →
      w % 2 ^ 24 = v % 2 ^ 24 →
      getMDKVersion MDK_VERSION eng2 d = getMDKVersion MDK_VERSION eng d) ∧
    (v = 0x00010203 → getMDKVersion MDK_VERSION eng d = "1.2.3") := by
  have hfmt : ∀ (e : Engine) (u : Int), e (d.m_lp .MDK_version) [] = Val.int u →
      getMDKVersion MDK_VERSION e d =
        toString (u / 2 ^ 16 % 256).toNat ++ "." ++ toString (u / 2 ^ 8 % 256).toNat ++ "." ++
        toString (u % 256).toNat := by
    intro e u hu
    rw [getMDKVersion_eq MDK_VERSION e d u hset hu]
    have e1 : (255 : Int) = 0xff := rfl
    rw [← e1, land_255, land_255, land_255, Int.shiftRight_eq_div_pow, Int.shiftRight_eq_div_pow]
    rw [toString_of_nonneg _ (Int.emod_nonneg _ (by norm_num)),
      toString_of_nonneg _ (Int.emod_nonneg _ (by norm_num)),
      toString_of_nonneg _ (Int.emod_nonneg _ (by norm_num))]
    norm_num
  refine ⟨getMDKVersion_eq MDK_VERSION eng d v hset hv, hfmt eng v hv, by omega, by omega,
    by omega, ?_, ?_⟩
  · intro eng2 w hw hwv
    rw [hfmt eng2 w hw, hfmt eng v hv]
    have a1 : w / 2 ^ 16 % 256 = v / 2 ^ 16 % 256 := by omega
    have a2 : w / 2 ^ 8 % 256 = v / 2 ^ 8 % 256 := by omega
    have a3 : w % 256 = v % 256 := by omega
    rw [a1, a2, a3]
  · intro hv2
    subst hv2
    rw [hfmt eng _ hv]
    decide

/-- C7 at a concrete input: a fully loaded binding whose version entry point
returns `0x00010203`. -/
theorem getMDKVersion_unpacks_witness :
    getMDKVersion 0 sampleEngine (MDKData.load fullEnv "full" MDKData.init).2.1 = "1.2.3" :=
  (getMDKVersion_unpacks 0 sampleEngine (MDKData.load fullEnv "full" MDKData.init).2.1
    0x00010203 (by decide) rfl).2.2.2.2.2.2 rfl

theorem candidates_eq (rawFileNames : String) :
    MDKData.candidates rawFileNames = ["mdk-0", "mdk"] ++ envSegments rawFileNames := by
  unfold MDKData.candidates envSegments
  by_cases h : rawFileNames = ""
  · subst h
    decide
  · simp only [h, ne_eq, not_false_eq_true, if_true]
    split
    · rfl
    · rename_i h2
      simp only [not_not] at h2
      rw [h2]
      rfl

theorem candidates_nonempty (rawFileNames : String) :
    ∀ q ∈ MDKData.candidates rawFileNames, q ≠ "" := by
  intro q hq
  rw [candidates_eq] at hq
  simp only [List.mem_append, List.mem_cons, List.mem_singleton, List.not_mem_nil, or_false] at hq
  rcases hq with (h | h) | h
  · subst h; decide
  · subst h; decide
  · simp only [envSegments, List.mem_map, List.mem_filter, decide_eq_true_eq] at h
    obtain ⟨seg, ⟨_, hseg⟩, rfl⟩ := h
    intro hcontra
    apply hseg
    have := congrArg String.data hcontra
    simpa using this

theorem loadAttempts_load_events (path : String) :
    loadAttempts [Event.libUnload, Event.libSetFileName path, Event.libLoad path] = [path] := by
  simp [loadAttempts]

theorem loadAttempts_append (a b : List Event) :
    loadAttempts (a ++ b) = loadAttempts a ++ loadAttempts b := by
  simp [loadAttempts, List.filterMap_append]

theorem tryCandidates_all_fail (env : LibEnv) (cs : List String) (d : MDKData)
    (hne : ∀ q ∈ cs, q ≠ "") (hnull : ∀ f, d.m_lp f = 0)
    (hfail : ∀ q ∈ cs, env.opens q = false) :
    (MDKData.tryCandidates env cs d).1.m_lp = d.m_lp ∧
    loadAttempts (MDKData.tryCandidates env cs d).2 = cs ∧
    (d.m_library.loaded = false ∨ cs ≠ [] →
      (MDKData.tryCandidates env cs d).1.m_library.loaded = false) := by
  induction cs generalizing d with
  | nil =>
    refine ⟨rfl, rfl, ?_⟩
    intro h
    rcases h with h | h
    · exact h
    · exact absurd rfl h
  | cons q rest ih =>
    have hq : q ≠ "" := hne q (List.mem_cons_self _ _)
    have hd : d.isLoaded = false := MDKData.isLoaded_eq_false_of_null d .MDK_javaVM (hnull _)
    obtain ⟨l1, l2, l3, l4⟩ :=
      MDKData.load_fails env q d hq hd (hfail q (List.mem_cons_self _ _))
    have hnull1 : ∀ f, (MDKData.load env q d).2.1.m_lp f = 0 := by
      intro f
      rw [l3]
      exact hnull f
    obtain ⟨i1, i2, i3⟩ := ih (MDKData.load env q d).2.1
      (fun x hx => hne x (List.mem_cons_of_mem _ hx)) hnull1
      (fun x hx => hfail x (List.mem_cons_of_mem _ hx))
    have hstep : MDKData.tryCandidates env (q :: rest) d =
        ((MDKData.tryCandidates env rest (MDKData.load env q d).2.1).1,
         (MDKData.load env q d).2.2 ++
           (MDKData.tryCandidates env rest (MDKData.load env q d).2.1).2) := by
      rw [MDKData.tryCandidates]
      simp [hq, l1]
    rw [hstep]
    refine ⟨?_, ?_, ?_⟩
    · show (MDKData.tryCandidates env rest (MDKData.load env q d).2.1).1.m_lp = d.m_lp
      rw [i1, l3]
    · show loadAttempts ((MDKData.load env q d).2.2 ++
        (MDKData.tryCandidates env rest (MDKData.load env q d).2.1).2) = q :: rest
      rw [loadAttempts_append, i2, l4, loadAttempts_load_events]
      rfl
    · intro _
      apply i3
      left
      rw [l2]

theorem tryCandidates_first_open (env : LibEnv) (pre : List String) (p : String)
    (post : List String) (d : MDKData)
    (hne : ∀ q ∈ pre, q ≠ "") (hp : p ≠ "") (hnull : ∀ f, d.m_lp f = 0)
    (hfail : ∀ q ∈ pre, env.opens q = false) (ho : env.opens p = true) :
    (MDKData.tryCandidates env (pre ++ p :: post) d).1.m_library
      = { fileName := p, loaded := true } ∧
    (∀ f, (MDKData.tryCandidates env (pre ++ p :: post) d).1.m_lp f = env.symbol p f) ∧
    loadAttempts (MDKData.tryCandidates env (pre ++ p :: post) d).2 = pre ++ [p] := by
  induction pre generalizing d with
  | nil =>
    have hd : d.isLoaded = false := MDKData.isLoaded_eq_false_of_null d .MDK_javaVM (hnull _)
    obtain ⟨l1, l2, l3, l4⟩ := MDKData.load_opens env p d hp hd ho
    have hstep : MDKData.tryCandidates env ([] ++ p :: post) d =
        ((MDKData.load env p d).2.1, (MDKData.load env p d).2.2) := by
      rw [List.nil_append, MDKData.tryCandidates]
      simp [hp, l1]
    rw [hstep]
    refine ⟨l2, ?_, ?_⟩
    · intro f
      show (MDKData.load env p d).2.1.m_lp f = env.symbol p f
      rw [l3 f]
      simp [hnull f]
    · show loadAttempts (MDKData.load env p d).2.2 = [] ++ [p]
      rw [l4, loadAttempts_load_events]
      rfl
  | cons q rest ih =>
    have hq : q ≠ "" := hne q (List.mem_cons_self _ _)
    have hd : d.isLoaded = false := MDKData.isLoaded_eq_false_of_null d .MDK_javaVM (hnull _)
    obtain ⟨l1, _, l3, l4⟩ :=
      MDKData.load_fails env q d hq hd (hfail q (List.mem_cons_self _ _))
    have hnull1 : ∀ f, (MDKData.load env q d).2.1.m_lp f = 0 := by
      intro f
      rw [l3]
      exact hnull f
    obtain ⟨i1, i2, i3⟩ := ih (MDKData.load env q d).2.1
      (fun x hx => hne x (List.mem_cons_of_mem _ hx)) hnull1
      (fun x hx => hfail x (List.mem_cons_of_mem _ hx))
    have hstep : MDKData.tryCandidates env (q :: rest ++ p :: post) d =
        ((MDKData.tryCandidates env (rest ++ p :: post) (MDKData.load env q d).2.1).1,
         (MDKData.load env q d).2.2 ++
           (MDKData.tryCandidates env (rest ++ p :: post) (MDKData.load env q d).2.1).2) := by
      rw [List.cons_append, MDKData.tryCandidates]
      simp [hq, l1]
    rw [hstep]
    refine ⟨i1, i2, ?_⟩
    show loadAttempts ((MDKData.load env q d).2.2 ++
      (MDKData.tryCandidates env (rest ++ p :: post) (MDKData.load env q d).2.1).2)
        = q :: rest ++ [p]
    rw [loadAttempts_append, i3, l4, loadAttempts_load_events]
    rfl

/-- C8: the constructor tries `"mdk-0"`, `"mdk"`, then the non-empty segments of
`QTMEDIAPLAYER_MDK_FILENAME` in written order. With `p` the first candidate that
opens, the library bound is `p`, each slot holds what `p` exports (null where a
symbol is missing), and `QLibrary::load` was called for the candidates up to `p`
and for none after it. When no candidate opens, all are tried and the binding
stays unloaded. -/
theorem constructor_binds_first_candidate_that_opens (env : LibEnv) (rawFileNames : String) :
    MDKData.candidates rawFileNames
      = ["mdk-0", "mdk"] ++
        ((rawFileNames.data.splitOn ';').filter (fun seg => seg ≠ [])).map String.mk ∧
    (∀ (pre : List String) (p : String) (post : List String),
      MDKData.candidates rawFileNames = pre ++ p :: post →
      (∀ q ∈ pre, env.opens q = false) → env.opens p = true →
      (MDKData.new env rawFileNames).1.m_library = { fileName := p, loaded := true } ∧
      (∀ f, (MDKData.new env rawFileNames).1.m_lp f = env.symbol p f) ∧
      loadAttempts (MDKData.new env rawFileNames).2 = pre ++ [p]) ∧
    ((∀ q ∈ MDKData.candidates rawFileNames, env.opens q = false) →
      loadAttempts (MDKData.new env rawFileNames).2 = MDKData.candidates rawFileNames ∧
      (MDKData.new env rawFileNames).1.m_library.loaded = false ∧
      (∀ f, (MDKData.new env rawFileNames).1.m_lp f = 0)) := by
  refine ⟨candidates_eq rawFileNames, ?_, ?_⟩
  · intro pre p post hcs hfail ho
    have hne := candidates_nonempty rawFileNames
    rw [hcs] at hne
    unfold MDKData.new
    rw [hcs]
    exact tryCandidates_first_open env pre p post MDKData.init
      (fun q hq => hne q (List.mem_append_left _ hq))
      (hne p (List.mem_append_right _ (List.mem_cons_self _ _)))
      (fun _ => rfl) hfail ho
  · intro hfail
    obtain ⟨h1, h2, h3⟩ := tryCandidates_all_fail env (MDKData.candidates rawFileNames)
      MDKData.init (candidates_nonempty rawFileNames) (fun _ => rfl) hfail
    unfold MDKData.new
    refine ⟨h2, h3 (Or.inl rfl), ?_⟩
    intro f
    rw [h1]
    rfl

/-- C8 at a concrete input: with `QTMEDIAPLAYER_MDK_FILENAME` set to
`x;;most;full`, where only `"most"` and `"full"` open, the constructor binds
`"most"` and never tries `"full"`, although `"most"` lacks `MDK_strdup`. -/
theorem constructor_binds_first_candidate_that_opens_witness :
    (MDKData.new fullEnv "x;;most;full").1.m_library = { fileName := "most", loaded := true } ∧
    (∀ f, (MDKData.new fullEnv "x;;most;full").1.m_lp f = fullEnv.symbol "most" f) ∧
    loadAttempts (MDKData.new fullEnv "x;;most;full").2 = ["mdk-0", "mdk", "x"] ++ ["most"] :=
  (constructor_binds_first_candidate_that_opens fullEnv "x;;most;full").2.1
    ["mdk-0", "mdk", "x"] "most" ["full"] (by decide) (by decide) (by decide)

end MDK

/-! ## The Vulkan texture path -/

namespace Vulkan

namespace MDKVideoTextureNodeImpl

theorem mask_test (bits i : Nat) (hi : i < 32) :
    bits &&& ((1 <<< i) % 2 ^ 32) = 0 ↔ bits.testBit i = false := by
  have h1 : (1 <<< i) % 2 ^ 32 = 2 ^ i := by
    rw [Nat.one_shiftLeft]
    exact Nat.mod_eq_of_lt (Nat.pow_lt_pow_right (by norm_num) hi)
  rw [h1, Nat.and_two_pow]
  cases bits.testBit i
  · simp
  · simp

theorem memIndexLoop_zero (bits : Nat) : memIndexLoop bits 0 = 0 := rfl

theorem memIndexLoop_succ (bits n : Nat) :
    memIndexLoop bits (n + 1) =
      if bits &&& ((1 <<< n) % 2 ^ 32) = 0 then memIndexLoop bits n else n := by
  unfold memIndexLoop
  rw [List.range_succ, List.foldl_append]
  rfl

theorem memIndexLoop_no_match (bits n : Nat) (hn : n ≤ 32)
    (h : ∀ i, i < n → bits.testBit i = false) : memIndexLoop bits n = 0 := by
  induction n with
  | zero => rfl
  | succ k ih =>
    rw [memIndexLoop_succ, if_pos ((mask_test bits k (by omega)).2 (h k (by omega)))]
    exact ih (by omega) (fun i hi => h i (by omega))

theorem memIndexLoop_last_match (bits n : Nat) (hn : n ≤ 32)
    (h : ∃ i, i < n ∧ bits.testBit i = true) :
    memIndexLoop bits n < n ∧ bits.testBit (memIndexLoop bits n) = true ∧
    ∀ j, j < n → bits.testBit j = true → j ≤ memIndexLoop bits n := by
  induction n with
  | zero =>
    obtain ⟨i, hi, _⟩ := h
    omega
  | succ k ih =>
    rw [memIndexLoop_succ]
    by_cases hk : bits.testBit k = true
    · have hmask : ¬ (bits &&& ((1 <<< k) % 2 ^ 32) = 0) := by
        rw [mask_test bits k (by omega), hk]
        simp
      rw [if_neg hmask]
      exact ⟨by omega, hk, fun j hj _ => by omega⟩
    · have hk2 : bits.testBit k = false := by simpa using hk
      rw [if_pos ((mask_test bits k (by omega)).2 hk2)]
      have hex : ∃ i, i < k ∧ bits.testBit i = true := by
        obtain ⟨i, hi, hbit⟩ := h
        refine ⟨i, ?_, hbit⟩
        rcases Nat.lt_succ_iff_lt_or_eq.1 hi with hlt | heq
        · exact hlt
        · subst heq
          rw [hk2] at hbit
          exact absurd hbit (by decide)
      obtain ⟨a1, a2, a3⟩ := ih (by omega) hex
      refine ⟨by omega, a2, ?_⟩
      intro j hj hbit
      rcases Nat.lt_succ_iff_lt_or_eq.1 hj with hlt | heq
      · exact a3 j hlt hbit
      · subst heq
        rw [hk2] at hbit
        exact absurd hbit (by decide)

theorem reachable_memory_null (n : MDKVideoTextureNodeImpl) (h : Reachable n) :
    n.m_texture_vk = 0 → n.m_textureMemory = 0 := by
  induction h with
  | fresh => intro _; rfl
  | ensure physDev newDev drv size n _ hdrv ih =>
    have hfree : (freeTexture { n with m_physDev := physDev }).1.m_texture_vk = 0 ∧
        (freeTexture { n with m_physDev := physDev }).1.m_textureMemory = 0 := by
      unfold freeTexture
      by_cases h0 : n.m_texture_vk = 0
      · simp [h0, ih h0]
      · simp [h0]
    unfold ensureTextureVulkan buildTexture
    dsimp only
    by_cases hc : drv.createImage = VK_SUCCESS
    · have himg : drv.image ≠ 0 := hdrv hc
      simp only [hc, ne_eq, not_true_eq_false, if_false]
      split
      · intro hcontra
        exact absurd hcontra himg
      · split
        · intro hcontra
          exact absurd hcontra himg
        · intro hcontra
          exact absurd hcontra himg
    · simp only [hc, ne_eq, not_false_eq_true, if_true]
      intro _
      exact hfree.2
  | free n _ ih =>
    unfold freeTexture
    by_cases h0 : n.m_texture_vk = 0
    · simp [h0, ih h0]
    · simp [h0]

/-- C9 as stated fails: with two memory types, both allowed by the mask
(`memoryTypeBits = 3`), `buildTexture` passes index 1 to `vkAllocateMemory`,
although index 0 is the smallest index whose bit is set. -/
theorem buildTexture_passes_last_matching_type :
    sampleDriver.memoryTypeBits.testBit 0 = true ∧ 0 < sampleDriver.memoryTypeCount ∧
    (buildTexture sampleDriver (4, 4) {}).2.2 =
      [Call.vkCreateImage 0 4 4, Call.vkGetImageMemoryRequirements 0 5,
       Call.vkGetPhysicalDeviceMemoryProperties 0, Call.vkAllocateMemory 0 64 1,
       Call.vkBindImageMemory 0 5 9] := by
  decide

/-- C9, amended: for a memory-type count of at most 32 and a mask with a bit set
below the count, when `vkCreateImage` succeeds `buildTexture` calls
`vkAllocateMemory` once, and the memory type index it passes is the largest
index below the count whose bit is set in the mask (the last matching type). -/
theorem buildTexture_memory_type_is_last_match (drv : VkDriver) (size : Nat × Nat)
    (n : MDKVideoTextureNodeImpl) (hcount : drv.memoryTypeCount ≤ 32)
    (hex : ∃ i, i < drv.memoryTypeCount ∧ drv.memoryTypeBits.testBit i = true)
    (hcreate : drv.createImage = VK_SUCCESS) :
    ∃ k, k < drv.memoryTypeCount ∧ drv.memoryTypeBits.testBit k = true ∧
      (∀ j, j < drv.memoryTypeCount → drv.memoryTypeBits.testBit j = true → j ≤ k) ∧
      (buildTexture drv size n).2.2.filter
          (fun c => match c with
            | .vkAllocateMemory _ _ _ => true
            | _ => false)
        = [Call.vkAllocateMemory n.m_dev drv.memReqSize k] := by
  obtain ⟨a1, a2, a3⟩ := memIndexLoop_last_match drv.memoryTypeBits drv.memoryTypeCount hcount hex
  refine ⟨memIndexLoop drv.memoryTypeBits drv.memoryTypeCount, a1, a2, a3, ?_⟩
  unfold buildTexture
  simp only [hcreate, ne_eq, not_true_eq_false, if_false]
  split
  · rfl
  · split <;> rfl

/-- C9, amended, at a concrete input: the sample driver, where the index is 1. -/
theorem buildTexture_memory_type_is_last_match_witness :
    ∃ k, k < sampleDriver.memoryTypeCount ∧ sampleDriver.memoryTypeBits.testBit k = true ∧
      (∀ j, j < sampleDriver.memoryTypeCount → sampleDriver.memoryTypeBits.testBit j = true →
        j ≤ k) ∧
      (buildTexture sampleDriver (4, 4) {}).2.2.filter
          (fun c => match c with
            | .vkAllocateMemory _ _ _ => true
            | _ => false)
        = [Call.vkAllocateMemory 0 sampleDriver.memReqSize k] :=
  buildTexture_memory_type_is_last_match sampleDriver (4, 4) {} (by decide)
    ⟨0, by decide, by decide⟩ rfl

/-- C10: one `freeTexture()` call issues either no device call (no image is
held, and the node is unchanged) or exactly `vkDeviceWaitIdle`, `vkFreeMemory`,
`vkDestroyImage` in this order, so that every `vkFreeMemory` and
`vkDestroyImage` has a `vkDeviceWaitIdle` before it in the same call; afterwards
the image handle is null, and in every reachable state of the node the memory
handle is null as well. -/
theorem freeTexture_waits_before_release :
    (∀ n : MDKVideoTextureNodeImpl,
      (n.m_texture_vk = 0 ∧ (freeTexture n).2 = [] ∧ (freeTexture n).1 = n) ∨
      (n.m_texture_vk ≠ 0 ∧
        (freeTexture n).2 =
          [Call.vkDeviceWaitIdle n.m_dev, Call.vkFreeMemory n.m_dev n.m_textureMemory,
           Call.vkDestroyImage n.m_dev n.m_texture_vk] ∧
        (freeTexture n).1.m_textureMemory = 0)) ∧
    (∀ (n : MDKVideoTextureNodeImpl) (pre post : List Call) (c : Call),
      (freeTexture n).2 = pre ++ c :: post →
      ((∃ dev mem, c = Call.vkFreeMemory dev mem) ∨
        (∃ dev img, c = Call.vkDestroyImage dev img)) →
      Call.vkDeviceWaitIdle n.m_dev ∈ pre) ∧
    (∀ n : MDKVideoTextureNodeImpl, (freeTexture n).1.m_texture_vk = 0) ∧
    (∀ n : MDKVideoTextureNodeImpl, Reachable n →
      (freeTexture n).1.m_texture_vk = 0 ∧ (freeTexture n).1.m_textureMemory = 0) := by
  have himg : ∀ n : MDKVideoTextureNodeImpl, (freeTexture n).1.m_texture_vk = 0 := by
    intro n
    unfold freeTexture
    by_cases h0 : n.m_texture_vk = 0
    · simp [h0]
    · simp [h0]
  refine ⟨?_, ?_, himg, ?_⟩
  · intro n
    unfold freeTexture
    by_cases h0 : n.m_texture_vk = 0
    · left
      simp [h0]
    · right
      simp [h0]
  · intro n pre post c hsplit hc
    unfold freeTexture at hsplit
    by_cases h0 : n.m_texture_vk = 0
    · simp [h0] at hsplit
    · simp only [h0, if_false] at hsplit
      cases pre with
      | nil =>
        simp only [List.nil_append, List.cons.injEq] at hsplit
        rcases hc with ⟨a, b, hc⟩ | ⟨a, b, hc⟩
        · rw [hc] at hsplit
          exact absurd hsplit.1 (by simp)
        · rw [hc] at hsplit
          exact absurd hsplit.1 (by simp)
      | cons a pre2 =>
        simp only [List.cons_append, List.cons.injEq] at hsplit
        rw [← hsplit.1]
        exact List.mem_cons_self _ _
  · intro n hreach
    refine ⟨himg n, ?_⟩
    unfold freeTexture
    by_cases h0 : n.m_texture_vk = 0
    · simp [h0, reachable_memory_null n hreach h0]
    · simp [h0]

/-- C10 at a concrete input: the node after one successful `ensureTexture` on
the Vulkan backend (device 2, image 5, memory 9). -/
theorem freeTexture_waits_before_release_witness :
    (freeTexture (ensureTextureVulkan 1 2 sampleDriver (4, 4) {}).2.1).2 =
      [Call.vkDeviceWaitIdle 2, Call.vkFreeMemory 2 9, Call.vkDestroyImage 2 5] ∧
    (freeTexture (ensureTextureVulkan 1 2 sampleDriver (4, 4) {}).2.1).1.m_texture_vk = 0 ∧
    (freeTexture (ensureTextureVulkan 1 2 sampleDriver (4, 4) {}).2.1).1.m_textureMemory = 0 :=
  ⟨by decide,
   freeTexture_waits_before_release.2.2.2 (ensureTextureVulkan 1 2 sampleDriver (4, 4) {}).2.1
     (Reachable.ensure 1 2 sampleDriver (4, 4) {} Reachable.fresh (by intro _; decide))⟩

end MDKVideoTextureNodeImpl

end Vulkan

/-! ## The engine binding: repeated loads and resolved wrappers -/

namespace MDK

theorem load_from_loaded_fails (env : LibEnv) (path : String) (d : MDKData) (hp : path ≠ "")
    (hd : d.isLoaded = true)
    (hu : d.m_library.loaded = true → env.unloads d.m_library.fileName = true)
    (ho : env.opens path = false) :
    (MDKData.load env path d).1 = false ∧
    (∀ f, (MDKData.load env path d).2.1.m_lp f = 0) := by
  have hres : (MDKData.unload env d).1 = true := by
    cases hr : (MDKData.unload env d).1
    · rw [MDKData.unload_result] at hr
      obtain ⟨hl, hfail⟩ := hr
      simp [QLibrary.unload, hl, hu hl] at hfail
    · rfl
  have hnull := MDKData.unload_lp env d
  unfold MDKData.load
  simp only [hp, hd, if_false, if_true, hres, Bool.not_true, Bool.false_eq_true,
    QLibrary.setFileName, QLibrary.load, ho]
  exact ⟨trivial, hnull⟩

theorem load_again (env : LibEnv) (p : String) (d1 : MDKData) (hp : p ≠ "")
    (hun : ∀ q, env.unloads q = true) (ho : env.opens p = true)
    (hslots : ∀ f, d1.m_lp f = env.symbol p f) :
    (MDKData.load env p d1).1 = true ∧
    (∀ f, (MDKData.load env p d1).2.1.m_lp f = env.symbol p f) := by
  cases hl : d1.isLoaded
  · obtain ⟨a1, _, a3, _⟩ := MDKData.load_opens env p d1 hp hl ho
    refine ⟨a1, ?_⟩
    intro f
    rw [a3 f]
    split
    · rfl
    · exact hslots f
  · obtain ⟨a1, _, a3⟩ := MDKData.load_from_loaded env p d1 hp hl (fun _ => hun _) ho
    exact ⟨a1, a3⟩

/-- C19 as stated fails: the library `"full"` exports every entry point and its
unloading fails. One `load("full")` on the initial binding returns true and
fills the table; a second `load("full")` returns false and leaves every slot
null. -/
theorem second_load_fails_when_unload_fails :
    (MDKData.load stickyEnv "full" MDKData.init).1 = true ∧
    (MDKData.load stickyEnv "full" MDKData.init).2.1.m_lp .MDK_version = 3011 ∧
    (MDKData.load stickyEnv "full" (MDKData.load stickyEnv "full" MDKData.init).2.1).1
      = false ∧
    (MDKData.load stickyEnv "full"
      (MDKData.load stickyEnv "full" MDKData.init).2.1).2.1.m_lp .MDK_version = 0 := by
  decide

/-- C19, amended: against an unchanging set of libraries whose unloading
succeeds, for every non-empty path `p` and every binding that is all-null or
fully loaded, `load(p)` twice in a row gives the same return value and the same
entry-point table as `load(p)` once. -/
theorem load_twice_eq_load_once (env : LibEnv) (p : String) (d : MDKData) (hp : p ≠ "")
    (hun : ∀ q, env.unloads q = true)
    (hd : (∀ f, d.m_lp f = 0) ∨ d.isLoaded = true) :
    (MDKData.load env p (MDKData.load env p d).2.1).1 = (MDKData.load env p d).1 ∧
    (MDKData.load env p (MDKData.load env p d).2.1).2.1.m_lp
      = (MDKData.load env p d).2.1.m_lp := by
  cases ho : env.opens p
  · -- the library does not open: both calls return false on an all-null table
    have hfirst : (MDKData.load env p d).1 = false ∧
        (∀ f, (MDKData.load env p d).2.1.m_lp f = 0) := by
      rcases hd with hnull | hfull
      · have hl : d.isLoaded = false :=
          MDKData.isLoaded_eq_false_of_null d .MDK_javaVM (hnull _)
        obtain ⟨a1, _, a3, _⟩ := MDKData.load_fails env p d hp hl ho
        refine ⟨a1, ?_⟩
        intro f
        rw [a3]
        exact hnull f
      · exact load_from_loaded_fails env p d hp hfull (fun _ => hun _) ho
    obtain ⟨r1, s1⟩ := hfirst
    have hl1 : (MDKData.load env p d).2.1.isLoaded = false :=
      MDKData.isLoaded_eq_false_of_null _ .MDK_javaVM (s1 _)
    obtain ⟨b1, _, b3, _⟩ := MDKData.load_fails env p (MDKData.load env p d).2.1 hp hl1 ho
    exact ⟨by rw [b1, r1], b3⟩
  · -- the library opens: both calls return true with the table of its exports
    have hfirst : (MDKData.load env p d).1 = true ∧
        (∀ f, (MDKData.load env p d).2.1.m_lp f = env.symbol p f) := by
      rcases hd with hnull | hfull
      · have hl : d.isLoaded = false :=
          MDKData.isLoaded_eq_false_of_null d .MDK_javaVM (hnull _)
        obtain ⟨a1, _, a3, _⟩ := MDKData.load_opens env p d hp hl ho
        refine ⟨a1, ?_⟩
        intro f
        rw [a3 f]
        simp [hnull f]
      · obtain ⟨a1, _, a3⟩ := MDKData.load_from_loaded env p d hp hfull (fun _ => hun _) ho
        exact ⟨a1, a3⟩
    obtain ⟨r1, s1⟩ := hfirst
    obtain ⟨b1, b3⟩ := load_again env p (MDKData.load env p d).2.1 hp hun ho s1
    refine ⟨by rw [b1, r1], ?_⟩
    funext f
    rw [b3 f, s1 f]

/-- C19, amended, at a concrete input: loading `"most"` (which lacks
`MDK_strdup`) twice on the initial binding. -/
theorem load_twice_eq_load_once_witness :
    (MDKData.load fullEnv "most" (MDKData.load fullEnv "most" MDKData.init).2.1).1
      = (MDKData.load fullEnv "most" MDKData.init).1 ∧
    (MDKData.load fullEnv "most" (MDKData.load fullEnv "most" MDKData.init).2.1).2.1.m_lp
      = (MDKData.load fullEnv "most" MDKData.init).2.1.m_lp :=
  load_twice_eq_load_once fullEnv "most" MDKData.init (by decide) (fun _ => rfl)
    (Or.inl (fun _ => rfl))

/-- C20: with its entry point resolved a wrapper calls the resolved function
exactly once, with the argument list unchanged, and leaves the binding
unchanged; a value-returning wrapper returns the value that function returned,
a void wrapper returns nothing. -/
theorem callThrough_resolved (MDK_VERSION : Int) (eng : Engine) (d : MDKData) (f : Api)
    (args : List Val) (h : d.m_lp f ≠ 0) :
    (callThrough MDK_VERSION eng d f args).2.2 = [Event.nativeCall (d.m_lp f) args] ∧
    (callThrough MDK_VERSION eng d f args).2.1 = d ∧
    (returnsValue f = true →
      (callThrough MDK_VERSION eng d f args).1 = eng (d.m_lp f) args) ∧
    (returnsValue f = false → (callThrough MDK_VERSION eng d f args).1 = Val.unit) := by
  refine ⟨callThrough_events_of_set MDK_VERSION eng d f args h, ?_, ?_, ?_⟩
  · cases f <;> simp [callThrough, WWX190_CALL_MDKAPI, WWX190_CALL_MDKAPI_RETURN, h]
  · cases f <;> simp [callThrough, WWX190_CALL_MDKAPI, WWX190_CALL_MDKAPI_RETURN, h,
      returnsValue]
  · cases f <;> simp [callThrough, WWX190_CALL_MDKAPI, WWX190_CALL_MDKAPI_RETURN, h,
      returnsValue]

/-- C20 at a concrete input: `MDK_setGlobalOptionInt32(key, value)` on a fully
loaded binding calls the address exported by `"full"` with `key, value`. -/
theorem callThrough_resolved_witness :
    (callThrough 0 sampleEngine (MDKData.load fullEnv "full" MDKData.init).2.1
        .MDK_setGlobalOptionInt32 [Val.ptr 7, Val.int 42]).2.2
      = [Event.nativeCall 3005 [Val.ptr 7, Val.int 42]] ∧
    (callThrough 0 sampleEngine (MDKData.load fullEnv "full" MDKData.init).2.1
        .MDK_version []).1 = Val.int 0x00010203 :=
  ⟨(callThrough_resolved 0 sampleEngine (MDKData.load fullEnv "full" MDKData.init).2.1
      .MDK_setGlobalOptionInt32 [Val.ptr 7, Val.int 42] (by decide)).1,
   (callThrough_resolved 0 sampleEngine (MDKData.load fullEnv "full" MDKData.init).2.1
      .MDK_version [] (by decide)).2.2.1 rfl⟩

/-- The partial-state side of C19 (the defect of C2): after `load("A")`, one
`load("B")` keeps the address 161 in the slot of `MDK_javaVM`, a second
`load("B")` clears it. -/
theorem load_twice_differs_on_stale_binding :
    (MDKData.load sampleEnv "B" (MDKData.load sampleEnv "A" MDKData.init).2.1).2.1.m_lp
      .MDK_javaVM = 161 ∧
    (MDKData.load sampleEnv "B"
      (MDKData.load sampleEnv "B"
        (MDKData.load sampleEnv "A" MDKData.init).2.1).2.1).2.1.m_lp .MDK_javaVM = 0 := by
  decide

end MDK

/-! ## The Vulkan texture path: live images -/

namespace Vulkan

namespace MDKVideoTextureNodeImpl

theorem ledgerHistory_append (created : Option Handle) (live : List Handle) (a b : List Call) :
    ledgerHistory created live (a ++ b) =
      ((ledgerHistory created live a).1 ++
         (ledgerHistory created (ledgerHistory created live a).2 b).1,
       (ledgerHistory created (ledgerHistory created live a).2 b).2) := by
  induction a generalizing live with
  | nil => rfl
  | cons c cs ih =>
    rw [List.cons_append]
    show ((live, c) :: (ledgerHistory created (ledgerStep created live c) (cs ++ b)).1,
      (ledgerHistory created (ledgerStep created live c) (cs ++ b)).2) = _
    rw [ih]
    rfl

theorem op_history (op : Op) (n : MDKVideoTextureNodeImpl) (live : List Handle)
    (hw : op.WellBehaved) (h : Agrees n live) :
    (∀ e ∈ (ledgerHistory op.created live (op.run n).2).1, EntryOk e) ∧
    Agrees (op.run n).1 (ledgerHistory op.created live (op.run n).2).2 := by
  unfold Agrees at h
  cases op with
  | free =>
    unfold Op.run freeTexture Agrees
    by_cases h0 : n.m_texture_vk = 0
    · simp only [h0, if_true] at h ⊢
      subst h
      simp [ledgerHistory]
    · simp only [h0, if_false] at h ⊢
      subst h
      simp [ledgerHistory, ledgerStep, EntryOk]
  | ensure physDev newDev drv size =>
    have hw2 : drv.createImage = VK_SUCCESS → drv.image ≠ 0 := hw
    unfold Op.run Op.created ensureTextureVulkan buildTexture freeTexture Agrees
    by_cases h0 : n.m_texture_vk = 0
    · simp only [h0, if_true] at h
      subst h
      by_cases hc : drv.createImage = VK_SUCCESS
      · have himg := hw2 hc
        by_cases ha : drv.allocateMemory = VK_SUCCESS
        · by_cases hb : drv.bindImageMemory = VK_SUCCESS
          · simp [h0, hc, ha, hb, ledgerHistory, ledgerStep, EntryOk, himg]
          · simp [h0, hc, ha, hb, ledgerHistory, ledgerStep, EntryOk, himg]
        · simp [h0, hc, ha, ledgerHistory, ledgerStep, EntryOk, himg]
      · simp [h0, hc, ledgerHistory, ledgerStep, EntryOk]
    · simp only [h0, if_false] at h
      subst h
      by_cases hc : drv.createImage = VK_SUCCESS
      · have himg := hw2 hc
        by_cases ha : drv.allocateMemory = VK_SUCCESS
        · by_cases hb : drv.bindImageMemory = VK_SUCCESS
          · simp [h0, hc, ha, hb, ledgerHistory, ledgerStep, EntryOk, himg]
          · simp [h0, hc, ha, hb, ledgerHistory, ledgerStep, EntryOk, himg]
        · simp [h0, hc, ha, ledgerHistory, ledgerStep, EntryOk, himg]
      · simp [h0, hc, ledgerHistory, ledgerStep, EntryOk]

theorem runOps_history (ops : List Op) (n : MDKVideoTextureNodeImpl) (live : List Handle)
    (hw : ∀ op ∈ ops, op.WellBehaved) (h : Agrees n live) :
    (∀ e ∈ (runOps ops n live).1, EntryOk e) ∧
    Agrees (runOps ops n live).2.1 (runOps ops n live).2.2 := by
  induction ops generalizing n live with
  | nil => exact ⟨by simp [runOps], h⟩
  | cons op ops ih =>
    obtain ⟨a1, a2⟩ := op_history op n live (hw op (List.mem_cons_self _ _)) h
    obtain ⟨b1, b2⟩ := ih (op.run n).1 (ledgerHistory op.created live (op.run n).2).2
      (fun x hx => hw x (List.mem_cons_of_mem _ hx)) a2
    refine ⟨?_, b2⟩
    intro e he
    simp only [runOps, List.mem_append] at he
    rcases he with he | he
    · exact a1 e he
    · exact b1 e he

/-- C15: in every run of `ensureTexture` (Vulkan) and `freeTexture` calls from a
fresh node, also when individual Vulkan calls fail, at most one image is created
and not yet destroyed before every call and at the end, and no image is live
when `vkCreateImage` is called: the image held before has been destroyed. -/
theorem at_most_one_live_image (ops : List Op) (hw : ∀ op ∈ ops, op.WellBehaved) :
    (∀ e ∈ (runOps ops {} []).1, e.1.length ≤ 1) ∧
    (runOps ops {} []).2.2.length ≤ 1 ∧
    (∀ e ∈ (runOps ops {} []).1, (∃ dev w h, e.2 = Call.vkCreateImage dev w h) → e.1 = []) ∧
    (runOps ops {} []).2.2 =
      if (runOps ops {} []).2.1.m_texture_vk = 0 then []
      else [(runOps ops {} []).2.1.m_texture_vk] := by
  obtain ⟨h1, h2⟩ := runOps_history ops {} [] hw rfl
  unfold Agrees at h2
  refine ⟨fun e he => (h1 e he).1, ?_, fun e he => (h1 e he).2, h2⟩
  rw [h2]
  split <;> simp

/-- C15 at a concrete input: a successful `ensureTexture`, one in which
`vkAllocateMemory` fails, one in which `vkCreateImage` fails, another successful
one, and `freeTexture`. -/
theorem at_most_one_live_image_witness :
    (∀ e ∈ (runOps [Op.ensure 1 2 sampleDriver (4, 4), Op.ensure 1 2 outOfMemoryDriver (8, 8),
        Op.ensure 1 2 noImageDriver (8, 8), Op.ensure 1 3 sampleDriver (8, 8), Op.free]
        {} []).1, e.1.length ≤ 1) ∧
    (runOps [Op.ensure 1 2 sampleDriver (4, 4), Op.ensure 1 2 outOfMemoryDriver (8, 8),
        Op.ensure 1 2 noImageDriver (8, 8), Op.ensure 1 3 sampleDriver (8, 8), Op.free]
        {} []).2.2 = [] :=
  ⟨(at_most_one_live_image [Op.ensure 1 2 sampleDriver (4, 4),
      Op.ensure 1 2 outOfMemoryDriver (8, 8), Op.ensure 1 2 noImageDriver (8, 8),
      Op.ensure 1 3 sampleDriver (8, 8), Op.free]
      (by
        intro op hop
        simp only [List.mem_cons, List.mem_singleton, List.not_mem_nil, or_false] at hop
        rcases hop with h | h | h | h | h <;> subst h
        · intro _; decide
        · intro _; decide
        · intro hc; exact absurd hc (by decide)
        · intro _; decide
        · trivial)).1,
   by decide⟩

end MDKVideoTextureNodeImpl

end Vulkan

/-! ## The MDK texture node: failures -/

namespace Texture

open Vulkan (Call)

theorem ensureTexture_vk_reachable (cfg : BuildConfig) (host : Host) (player : MDK.Ptr)
    (size : Nat × Nat) (n : MDKNode) (hr : Vulkan.MDKVideoTextureNodeImpl.Reachable n.vk)
    (hw : host.drv.WellBehaved) :
    Vulkan.MDKVideoTextureNodeImpl.Reachable (ensureTexture cfg host player size n).node.vk := by
  unfold ensureTexture
  split
  · exact hr
  · split
    · split
      · dsimp only
        split <;> exact hr
      · exact hr
    · split
      · split
        · exact hr
        · split
          · exact hr
          · dsimp only
            split <;> exact hr
      · exact hr
    · split
      · dsimp only
        split <;> exact hr
      · exact hr
    · split
      · exact Vulkan.MDKVideoTextureNodeImpl.Reachable.ensure _ _ _ _ _ hr hw
      · exact hr
    · exact hr
    · exact hr

/-- C13, at the failing inputs. With `vkAllocateMemory` failing, `buildTexture`
returns false, yet `ensureTexture` calls `setRenderAPI` with the image that has
no memory, sends `setRendererReady(true)` and returns a texture wrapping that
image. With `vkCreateImage` failing it returns `nullptr`, but still calls
`setRenderAPI` (with a null render target) and sends `setRendererReady(true)`. -/
theorem ensureTexture_registers_target_after_vulkan_failure :
    (Vulkan.MDKVideoTextureNodeImpl.buildTexture Vulkan.outOfMemoryDriver (4, 4)
      { m_physDev := 1, m_dev := 2 }).1 = false ∧
    (ensureTexture allBackends outOfMemoryHost 7 (4, 4) sampleNode).outcome
      = .returned (some ⟨6, (4, 4)⟩) ∧
    (ensureTexture allBackends outOfMemoryHost 7 (4, 4) sampleNode).effects
      = [.vk (.vkCreateImage 2 4 4), .vk (.vkGetImageMemoryRequirements 2 6),
         .vk (.vkGetPhysicalDeviceMemoryProperties 1), .vk (.vkAllocateMemory 2 64 1),
         .vk (.setRenderAPI 2 1 6), .vk (.setRendererReady true)] ∧
    (ensureTexture allBackends noImageHost 7 (4, 4) sampleNode).outcome = .returned none ∧
    (ensureTexture allBackends noImageHost 7 (4, 4) sampleNode).effects
      = [.vk (.vkCreateImage 2 4 4), .vk (.setRenderAPI 2 1 0),
         .vk (.setRendererReady true)] := by
  decide

/-- C14: on the Direct3D11 backend (a Windows build), when the device resource
is null or `CreateTexture2D` fails, `ensureTexture` returns `nullptr`, does not
call `setRenderAPI` and does not send `setRendererReady`. -/
theorem ensureTexture_d3d11_failure (cfg : BuildConfig) (host : Host) (player : MDK.Ptr)
    (size : Nat × Nat) (n : MDKNode) (hapi : host.graphicsApi = .Direct3D11)
    (hwin : cfg.windows = true) (hfail : host.d3dDevice = 0 ∨ host.createTexture2D < 0) :
    (ensureTexture cfg host player size n).outcome = .returned none ∧
    (∀ e ∈ (ensureTexture cfg host player size n).effects,
      e.isSetRenderAPI = false ∧ e.isSetRendererReady = false) := by
  unfold ensureTexture
  split
  · simp
  · simp only [hapi, hwin, if_true]
    by_cases hdev : host.d3dDevice = 0
    · simp [hdev, Effect.isSetRenderAPI, Effect.isSetRendererReady]
    · have hcreate : host.createTexture2D < 0 := by
        rcases hfail with h | h
        · exact absurd h hdev
        · exact h
      simp [hdev, hcreate, Effect.isSetRenderAPI, Effect.isSetRendererReady]

/-- C14 at a concrete input: `CreateTexture2D` fails with `E_OUTOFMEMORY`. -/
theorem ensureTexture_d3d11_failure_witness :
    (ensureTexture allBackends failingD3DHost 7 (4, 4) sampleNode).outcome = .returned none ∧
    (∀ e ∈ (ensureTexture allBackends failingD3DHost 7 (4, 4) sampleNode).effects,
      e.isSetRenderAPI = false ∧ e.isSetRendererReady = false) :=
  ensureTexture_d3d11_failure allBackends failingD3DHost 7 (4, 4) sampleNode rfl rfl
    (Or.inr (by decide))

end Texture

/-! ## The mpv texture node -/

namespace MPV

open Texture (BuildConfig GraphicsApi allBackends)

theorem frameA_newSize : frameA.newSize = (1280, 720) := by
  norm_num [Frame.newSize, qRound, frameA, Rat.floor]

theorem frameB_newSize : frameB.newSize = (1600, 1200) := by
  norm_num [Frame.newSize, qRound, frameB, Rat.floor]

theorem ensureTexture_texture (cfg : BuildConfig) (host : Host) (player : MDK.Ptr)
    (size : Int × Int) (n : MPVVideoTextureNode) :
    (ensureTexture cfg host player size n).node.texture = n.texture ∧
    (ensureTexture cfg host player size n).node.m_size = n.m_size ∧
    (ensureTexture cfg host player size n).node.m_item = n.m_item ∧
    (ensureTexture cfg host player size n).node.m_window = n.m_window ∧
    (ensureTexture cfg host player size n).node.m_mpv = n.m_mpv := by
  unfold ensureTexture
  by_cases h1 : n.m_item = 0 ∨ n.m_window = 0
  · simp [h1]
  · by_cases h2 : n.m_mpv = 0
    · simp [h1, h2]
    · simp only [h1, h2, if_false]
      split
      · by_cases hgl : cfg.opengl = true <;> by_cases hctx : n.m_mpv_gl = 0 <;>
          by_cases hc : host.createResult < 0 <;> by_cases ht : host.fboTexture = 0 <;>
          simp [hgl, hctx, hc, ht]
      · simp
      · simp

theorem ensureTexture_opengl (cfg : BuildConfig) (host : Host) (player : MDK.Ptr)
    (size : Int × Int) (n : MPVVideoTextureNode) (hitem : n.m_item ≠ 0) (hwin : n.m_window ≠ 0)
    (hmpv : n.m_mpv ≠ 0) (hapi : host.graphicsApi = .OpenGL) (hgl : cfg.opengl = true) :
    (ensureTexture cfg host player size n).effects.filter Effect.isAllocation
      = [Effect.newFramebufferObject size] ∧
    (0 ≤ host.createResult → host.fboTexture ≠ 0 →
      (ensureTexture cfg host player size n).outcome
        = .returned (some ⟨host.fboTexture, size⟩)) ∧
    (0 ≤ host.createResult → host.fboTexture = 0 →
      (ensureTexture cfg host player size n).outcome = .returned none) := by
  unfold ensureTexture
  simp only [hitem, hwin, hmpv, or_self, if_false, hapi, hgl, if_true]
  by_cases hctx : n.m_mpv_gl = 0
  · by_cases hc : host.createResult < 0
    · simp [hctx, hc, Effect.isAllocation]
    · by_cases ht : host.fboTexture = 0
      · simp [hctx, hc, ht, Effect.isAllocation]
      · simp [hctx, hc, ht, Effect.isAllocation]
  · by_cases ht : host.fboTexture = 0
    · simp [hctx, ht, Effect.isAllocation]
    · simp [hctx, ht, Effect.isAllocation]

theorem sync_noop (cfg : BuildConfig) (fr : Frame) (host : Host) (n : MPVVideoTextureNode)
    (htex : n.texture ≠ none) (hsize : fr.newSize = n.m_size) :
    (sync cfg fr host n).outcome = .returned none ∧ (sync cfg fr host n).node = n ∧
    (sync cfg fr host n).effects = [] := by
  unfold sync
  split
  · simp
  · simp [htex, hsize]

theorem sync_rebuild_some (cfg : BuildConfig) (fr : Frame) (host : Host)
    (n : MPVVideoTextureNode) (tex : QSGTexture)
    (hitem : n.m_item ≠ 0) (hwin : n.m_window ≠ 0) (hmpv : n.m_mpv ≠ 0)
    (hneed : ¬ (n.texture ≠ none ∧ fr.newSize = n.m_size))
    (hens : (ensureTexture cfg host 0 fr.newSize { n with m_size := fr.newSize }).outcome
      = .returned (some tex)) :
    (sync cfg fr host n).outcome = .returned none ∧
    (sync cfg fr host n).node =
      { (ensureTexture cfg host 0 fr.newSize { n with m_size := fr.newSize }).node with
        texture := some tex, transform := .NoTransform, filtering := .Linear,
        rect := (0, 0, fr.itemWidth, fr.itemHeight) } ∧
    (sync cfg fr host n).effects =
      Effect.ensureTexture fr.newSize ::
        (ensureTexture cfg host 0 fr.newSize { n with m_size := fr.newSize }).effects ++
        [Effect.deleteTexture n.texture] := by
  have ht := (ensureTexture_texture cfg host 0 fr.newSize { n with m_size := fr.newSize }).1
  unfold sync
  simp only [hitem, hwin, or_self, if_false, hneed, hmpv]
  rw [hens]
  simp only [ht]
  exact ⟨trivial, trivial, trivial⟩

theorem sync_rebuild_none (cfg : BuildConfig) (fr : Frame) (host : Host)
    (n : MPVVideoTextureNode)
    (hitem : n.m_item ≠ 0) (hwin : n.m_window ≠ 0) (hmpv : n.m_mpv ≠ 0)
    (hneed : ¬ (n.texture ≠ none ∧ fr.newSize = n.m_size))
    (hens : (ensureTexture cfg host 0 fr.newSize { n with m_size := fr.newSize }).outcome
      = .returned none) :
    (sync cfg fr host n).outcome = .returned none ∧
    (sync cfg fr host n).node =
      (ensureTexture cfg host 0 fr.newSize { n with m_size := fr.newSize }).node ∧
    (sync cfg fr host n).effects =
      Effect.ensureTexture fr.newSize ::
        (ensureTexture cfg host 0 fr.newSize { n with m_size := fr.newSize }).effects := by
  unfold sync
  simp only [hitem, hwin, or_self, if_false, hneed, hmpv]
  rw [hens]
  exact ⟨rfl, rfl, rfl⟩

theorem sync_rebuild_ok (cfg : BuildConfig) (fr : Frame) (host : Host)
    (n : MPVVideoTextureNode)
    (hitem : n.m_item ≠ 0) (hwin : n.m_window ≠ 0) (hmpv : n.m_mpv ≠ 0)
    (hneed : ¬ (n.texture ≠ none ∧ fr.newSize = n.m_size))
    (hapi : host.graphicsApi = .OpenGL) (hgl : cfg.opengl = true)
    (hc : 0 ≤ host.createResult) (ht : host.fboTexture ≠ 0) :
    (sync cfg fr host n).outcome = .returned none ∧
    (sync cfg fr host n).node.texture = some ⟨host.fboTexture, fr.newSize⟩ ∧
    (sync cfg fr host n).node.m_size = fr.newSize ∧
    (sync cfg fr host n).node.m_item = n.m_item ∧
    (sync cfg fr host n).node.m_window = n.m_window ∧
    (sync cfg fr host n).node.m_mpv = n.m_mpv ∧
    (sync cfg fr host n).effects.filter Effect.isAllocation
      = [Effect.newFramebufferObject fr.newSize] := by
  obtain ⟨e1, e2, _⟩ := ensureTexture_opengl cfg host 0 fr.newSize
    { n with m_size := fr.newSize } hitem hwin hmpv hapi hgl
  obtain ⟨_, t2, t3, t4, t5⟩ := ensureTexture_texture cfg host 0 fr.newSize
    { n with m_size := fr.newSize }
  obtain ⟨s1, s2, s3⟩ := sync_rebuild_some cfg fr host n ⟨host.fboTexture, fr.newSize⟩
    hitem hwin hmpv hneed (e2 hc ht)
  refine ⟨s1, ?_, ?_, ?_, ?_, ?_, ?_⟩
  · rw [s2]
  · rw [s2]; exact t2
  · rw [s2]; exact t3
  · rw [s2]; exact t4
  · rw [s2]; exact t5
  · rw [s3, List.filter_append, List.filter_cons, e1]
    simp [Effect.isAllocation]

/-- C16: when a texture is bound and the size computed from the item size and
the device pixel ratio equals the stored size, `sync()` returns without calling
`ensureTexture` or anything else and leaves the node as it is: bound texture,
stored size, transform, filtering and rectangle are unchanged. -/
theorem sync_unchanged_size_is_noop (cfg : BuildConfig) (fr : Frame) (host : Host)
    (n : MPVVideoTextureNode) (htex : n.texture ≠ none) (hsize : fr.newSize = n.m_size) :
    (sync cfg fr host n).outcome = .returned none ∧
    (sync cfg fr host n).effects = [] ∧
    (∀ size, Effect.ensureTexture size ∉ (sync cfg fr host n).effects) ∧
    (sync cfg fr host n).node = n ∧
    (sync cfg fr host n).node.texture = n.texture ∧
    (sync cfg fr host n).node.m_size = n.m_size ∧
    (sync cfg fr host n).node.transform = n.transform ∧
    (sync cfg fr host n).node.filtering = n.filtering ∧
    (sync cfg fr host n).node.rect = n.rect := by
  obtain ⟨h1, h2, h3⟩ := sync_noop cfg fr host n htex hsize
  refine ⟨h1, h3, ?_, h2, ?_, ?_, ?_, ?_, ?_⟩
  · intro size
    rw [h3]
    exact List.not_mem_nil _
  all_goals rw [h2]

/-- C16 at a concrete input: a second `sync()` with the same item geometry. -/
theorem sync_unchanged_size_is_noop_witness :
    (sync allBackends frameA (sampleHost .OpenGL)
      (sync allBackends frameA (sampleHost .OpenGL) sampleNode).node).effects = [] :=
  (sync_unchanged_size_is_noop allBackends frameA (sampleHost .OpenGL)
    (sync allBackends frameA (sampleHost .OpenGL) sampleNode).node
    (by
      rw [(sync_rebuild_ok allBackends frameA (sampleHost .OpenGL) sampleNode (by decide)
        (by decide) (by decide) (by simp [sampleNode]) rfl rfl (by decide) (by decide)).2.1]
      simp)
    (sync_rebuild_ok allBackends frameA (sampleHost .OpenGL) sampleNode (by decide)
        (by decide) (by decide) (by simp [sampleNode]) rfl rfl (by decide)
        (by decide)).2.2.1.symm).2.1

/-- C17, at the failing input. A first `sync()` binds a texture of 1280 x 720.
The item grows; the next `sync()` requests 1600 x 1200, `ensureTexture` returns
`nullptr` (the new framebuffer object has no texture), and the old texture
stays bound while the stored size is already 1600 x 1200. A further `sync()`
requesting 1600 x 1200 then returns at once: it makes no call, although the
bound texture was created for 1280 x 720. -/
theorem sync_skips_rebuild_after_failed_rebuild :
    (sync allBackends frameA (sampleHost .OpenGL) sampleNode).node.texture
      = some ⟨4, (1280, 720)⟩ ∧
    frameB.newSize = (1600, 1200) ∧
    (sync allBackends frameB noTextureHost
      (sync allBackends frameA (sampleHost .OpenGL) sampleNode).node).effects
      = [Effect.ensureTexture (1600, 1200), Effect.newFramebufferObject (1600, 1200)] ∧
    (sync allBackends frameB noTextureHost
      (sync allBackends frameA (sampleHost .OpenGL) sampleNode).node).node.texture
      = some ⟨4, (1280, 720)⟩ ∧
    (sync allBackends frameB noTextureHost
      (sync allBackends frameA (sampleHost .OpenGL) sampleNode).node).node.m_size
      = (1600, 1200) ∧
    (sync allBackends frameB (sampleHost .OpenGL)
      (sync allBackends frameB noTextureHost
        (sync allBackends frameA (sampleHost .OpenGL) sampleNode).node).node).effects = [] ∧
    (sync allBackends frameB (sampleHost .OpenGL)
      (sync allBackends frameB noTextureHost
        (sync allBackends frameA (sampleHost .OpenGL) sampleNode).node).node).node.texture
      = some ⟨4, (1280, 720)⟩ := by
  simp [sync, ensureTexture, sampleNode, sampleHost, noTextureHost, allBackends,
    frameA_newSize, frameB_newSize]

/-- C18: when `sync()` rebuilds (item, window and mpv handle present, no
texture bound or the size changed) and `ensureTexture` returns a texture,
afterwards the bound texture is the returned one, the previous one was deleted
last, the stored size is the requested size, the transform is `NoTransform`,
filtering is `Linear`, and the rectangle is `(0, 0, item width, item height)`,
the logical size without the device pixel ratio. -/
theorem sync_binds_returned_texture (cfg : BuildConfig) (fr : Frame) (host : Host)
    (n : MPVVideoTextureNode) (tex : QSGTexture)
    (hitem : n.m_item ≠ 0) (hwin : n.m_window ≠ 0) (hmpv : n.m_mpv ≠ 0)
    (hneed : ¬ (n.texture ≠ none ∧ fr.newSize = n.m_size))
    (hens : (ensureTexture cfg host 0 fr.newSize { n with m_size := fr.newSize }).outcome
      = .returned (some tex)) :
    (sync cfg fr host n).outcome = .returned none ∧
    (sync cfg fr host n).node.texture = some tex ∧
    (sync cfg fr host n).node.m_size = fr.newSize ∧
    (sync cfg fr host n).node.transform = .NoTransform ∧
    (sync cfg fr host n).node.filtering = .Linear ∧
    (sync cfg fr host n).node.rect = (0, 0, fr.itemWidth, fr.itemHeight) ∧
    (sync cfg fr host n).effects =
      Effect.ensureTexture fr.newSize ::
        (ensureTexture cfg host 0 fr.newSize { n with m_size := fr.newSize }).effects ++
        [Effect.deleteTexture n.texture] := by
  obtain ⟨s1, s2, s3⟩ := sync_rebuild_some cfg fr host n tex hitem hwin hmpv hneed hens
  refine ⟨s1, ?_, ?_, ?_, ?_, ?_, s3⟩
  · rw [s2]
  · rw [s2]
    exact (ensureTexture_texture cfg host 0 fr.newSize { n with m_size := fr.newSize }).2.1
  · rw [s2]
  · rw [s2]
  · rw [s2]

/-- C18 at a concrete input: the first `sync()` of a fresh node for an item of
640 x 360 at device pixel ratio 2. -/
theorem sync_binds_returned_texture_witness :
    (sync allBackends frameA (sampleHost .OpenGL) sampleNode).node.texture
      = some ⟨4, frameA.newSize⟩ ∧
    (sync allBackends frameA (sampleHost .OpenGL) sampleNode).node.m_size = frameA.newSize ∧
    (sync allBackends frameA (sampleHost .OpenGL) sampleNode).node.filtering = .Linear ∧
    (sync allBackends frameA (sampleHost .OpenGL) sampleNode).node.rect = (0, 0, 640, 360) :=
  ⟨(sync_binds_returned_texture allBackends frameA (sampleHost .OpenGL) sampleNode
      ⟨4, frameA.newSize⟩ (by decide) (by decide) (by decide) (by simp [sampleNode])
      ((ensureTexture_opengl allBackends (sampleHost .OpenGL) 0 frameA.newSize _
        (by decide) (by decide) (by decide) rfl rfl).2.1 (by decide) (by decide))).2.1,
   (sync_binds_returned_texture allBackends frameA (sampleHost .OpenGL) sampleNode
      ⟨4, frameA.newSize⟩ (by decide) (by decide) (by decide) (by simp [sampleNode])
      ((ensureTexture_opengl allBackends (sampleHost .OpenGL) 0 frameA.newSize _
        (by decide) (by decide) (by decide) rfl rfl).2.1 (by decide) (by decide))).2.2.1,
   (sync_binds_returned_texture allBackends frameA (sampleHost .OpenGL) sampleNode
      ⟨4, frameA.newSize⟩ (by decide) (by decide) (by decide) (by simp [sampleNode])
      ((ensureTexture_opengl allBackends (sampleHost .OpenGL) 0 frameA.newSize _
        (by decide) (by decide) (by decide) rfl rfl).2.1 (by decide) (by decide))).2.2.2.2.1,
   (sync_binds_returned_texture allBackends frameA (sampleHost .OpenGL) sampleNode
      ⟨4, frameA.newSize⟩ (by decide) (by decide) (by decide) (by simp [sampleNode])
      ((ensureTexture_opengl allBackends (sampleHost .OpenGL) 0 frameA.newSize _
        (by decide) (by decide) (by decide) rfl rfl).2.1 (by decide) (by decide))).2.2.2.2.2.1⟩

/-- C12 as stated fails for a null engine handle: on the Software backend the
MDK `ensureTexture` called with `player = nullptr`, and the mpv `ensureTexture`
on an item without mpv handle, return `nullptr` without any call and without
`qFatal`. -/
theorem ensureTexture_software_null_handle_returns :
    (Texture.ensureTexture allBackends (Texture.sampleHost .Software) 0 (4, 4)
      Texture.sampleNode).outcome = .returned none ∧
    (Texture.ensureTexture allBackends (Texture.sampleHost .Software) 0 (4, 4)
      Texture.sampleNode).effects = [] ∧
    (ensureTexture allBackends (sampleHost .Software) 0 (4, 4)
      { m_item := 1, m_window := 1, m_mpv := 0 }).outcome = .returned none ∧
    (ensureTexture allBackends (sampleHost .Software) 0 (4, 4)
      { m_item := 1, m_window := 1, m_mpv := 0 }).effects = [] := by
  decide

/-- C12, amended: for every size, when the renderer reports the Software API and
the engine handle is present (MDK: `player` and the window non-null; mpv: item,
window and the item's mpv handle non-null), `ensureTexture` ends in `qFatal`
without making any call, so it returns neither a texture nor `nullptr`; with a
null handle it returns `nullptr` before looking at the API. -/
theorem ensureTexture_software_is_fatal (cfg : BuildConfig) :
    (∀ (host : Texture.Host) (player : MDK.Ptr) (size : Nat × Nat) (n : Texture.MDKNode),
      host.graphicsApi = .Software → player ≠ 0 → n.m_window ≠ 0 →
      (Texture.ensureTexture cfg host player size n).outcome
        = .fatal "TO BE IMPLEMENTED: Software backend of MDK." ∧
      (Texture.ensureTexture cfg host player size n).effects = []) ∧
    (∀ (host : Host) (player : MDK.Ptr) (size : Int × Int) (n : MPVVideoTextureNode),
      host.graphicsApi = .Software → n.m_item ≠ 0 → n.m_window ≠ 0 → n.m_mpv ≠ 0 →
      (ensureTexture cfg host player size n).outcome
        = .fatal "TO BE IMPLEMENTED: Software backend of libmpv." ∧
      (ensureTexture cfg host player size n).effects = []) ∧
    (∀ (host : Texture.Host) (player : MDK.Ptr) (size : Nat × Nat) (n : Texture.MDKNode),
      player = 0 ∨ n.m_window = 0 →
      (Texture.ensureTexture cfg host player size n).outcome = .returned none ∧
      (Texture.ensureTexture cfg host player size n).effects = []) ∧
    (∀ (host : Host) (player : MDK.Ptr) (size : Int × Int) (n : MPVVideoTextureNode),
      n.m_item = 0 ∨ n.m_window = 0 ∨ n.m_mpv = 0 →
      (ensureTexture cfg host player size n).outcome = .returned none ∧
      (ensureTexture cfg host player size n).effects = []) := by
  refine ⟨?_, ?_, ?_, ?_⟩
  · intro host player size n hapi hp hw
    unfold Texture.ensureTexture
    simp [hapi, hp, hw]
  · intro host player size n hapi hi hw hm
    unfold ensureTexture
    simp [hapi, hi, hw, hm]
  · intro host player size n h
    unfold Texture.ensureTexture
    simp [h]
  · intro host player size n h
    unfold ensureTexture
    by_cases h1 : n.m_item = 0 ∨ n.m_window = 0
    · simp [h1]
    · have hm : n.m_mpv = 0 := by tauto
      simp [h1, hm]

/-- C12, amended, at a concrete input: both nodes with their handles present on
the Software backend. -/
theorem ensureTexture_software_is_fatal_witness :
    (Texture.ensureTexture allBackends (Texture.sampleHost .Software) 7 (4, 4)
      Texture.sampleNode).outcome = .fatal "TO BE IMPLEMENTED: Software backend of MDK." ∧
    (ensureTexture allBackends (sampleHost .Software) 0 (4, 4) sampleNode).outcome
      = .fatal "TO BE IMPLEMENTED: Software backend of libmpv." :=
  ⟨((ensureTexture_software_is_fatal allBackends).1 (Texture.sampleHost .Software) 7 (4, 4)
      Texture.sampleNode rfl (by decide) (by decide)).1,
   ((ensureTexture_software_is_fatal allBackends).2.1 (sampleHost .Software) 0 (4, 4)
      sampleNode rfl (by decide) (by decide) (by decide)).1⟩

theorem mdk_ensureTexture_allocates_once (cfg : BuildConfig) (host : Texture.Host)
    (player : MDK.Ptr) (size : Nat × Nat) (n : Texture.MDKNode)
    (hp : player ≠ 0) (hw : n.m_window ≠ 0)
    (hapi : (host.graphicsApi = .OpenGL ∧ cfg.opengl = true) ∨
      (host.graphicsApi = .Direct3D11 ∧ cfg.windows = true ∧ host.d3dDevice ≠ 0) ∨
      (host.graphicsApi = .Metal ∧ cfg.macos = true) ∨
      (host.graphicsApi = .Vulkan ∧ cfg.vulkan = true)) :
    ((Texture.ensureTexture cfg host player size n).effects.filter
      Texture.Effect.isAllocation).length = 1 := by
  unfold Texture.ensureTexture
  simp only [hp, hw, or_self, if_false]
  rcases hapi with ⟨ha, hc⟩ | ⟨ha, hc, hd⟩ | ⟨ha, hc⟩ | ⟨ha, hc⟩
  · by_cases ht : host.fboTexture = 0 <;> simp [ha, hc, ht, Texture.Effect.isAllocation]
  · by_cases hf : host.createTexture2D < 0 <;> by_cases ht : host.d3dTexture = 0 <;>
      simp [ha, hc, hd, hf, ht, Texture.Effect.isAllocation]
  · by_cases ht : host.mtlTexture = 0 <;> simp [ha, hc, ht, Texture.Effect.isAllocation]
  · simp only [ha, hc, if_true]
    unfold Vulkan.MDKVideoTextureNodeImpl.ensureTextureVulkan
      Vulkan.MDKVideoTextureNodeImpl.buildTexture Vulkan.MDKVideoTextureNodeImpl.freeTexture
    by_cases h0 : n.vk.m_texture_vk = 0 <;>
      by_cases h1 : host.drv.createImage = Vulkan.VK_SUCCESS <;>
      by_cases h2 : host.drv.allocateMemory = Vulkan.VK_SUCCESS <;>
      by_cases h3 : host.drv.bindImageMemory = Vulkan.VK_SUCCESS <;>
      simp [h0, h1, h2, h3, Texture.Effect.isAllocation]

/-- C11 as stated fails: `ensureTexture` allocates on every call. On the mpv
node two successive calls with the same size 1280 x 720 each create a new
framebuffer object; on the MDK node the same holds for OpenGL, and on Vulkan the
second call with the same size destroys the image and creates a new one. -/
theorem ensureTexture_allocates_on_repeated_size :
    (ensureTexture allBackends (sampleHost .OpenGL) 0 (1280, 720) sampleNode).effects.filter
      Effect.isAllocation = [Effect.newFramebufferObject (1280, 720)] ∧
    (ensureTexture allBackends (sampleHost .OpenGL) 0 (1280, 720)
      (ensureTexture allBackends (sampleHost .OpenGL) 0 (1280, 720) sampleNode).node
      ).effects.filter Effect.isAllocation = [Effect.newFramebufferObject (1280, 720)] ∧
    (Texture.ensureTexture allBackends (Texture.sampleHost .OpenGL) 7 (4, 4)
      (Texture.ensureTexture allBackends (Texture.sampleHost .OpenGL) 7 (4, 4)
        Texture.sampleNode).node).effects.filter Texture.Effect.isAllocation
      = [Texture.Effect.newFramebufferObject (4, 4)] ∧
    (Texture.ensureTexture allBackends (Texture.sampleHost .Vulkan) 7 (4, 4)
      (Texture.ensureTexture allBackends (Texture.sampleHost .Vulkan) 7 (4, 4)
        Texture.sampleNode).node).effects
      = [.vk (.vkDeviceWaitIdle 2), .vk (.vkFreeMemory 2 9), .vk (.vkDestroyImage 2 5),
         .vk (.vkCreateImage 2 4 4), .vk (.vkGetImageMemoryRequirements 2 5),
         .vk (.vkGetPhysicalDeviceMemoryProperties 1), .vk (.vkAllocateMemory 2 64 1),
         .vk (.vkBindImageMemory 2 5 9), .vk (.setRenderAPI 2 1 5),
         .vk (.setRendererReady true)] := by
  decide

theorem mdk_ensureTexture_window (cfg : BuildConfig) (host : Texture.Host)
    (player : MDK.Ptr) (size : Nat × Nat) (n : Texture.MDKNode) :
    (Texture.ensureTexture cfg host player size n).node.m_window = n.m_window := by
  unfold Texture.ensureTexture
  by_cases h : player = 0 ∨ n.m_window = 0
  · simp [h]
  · simp only [h, if_false]
    split
    · by_cases hc : cfg.opengl = true <;> by_cases ht : host.fboTexture = 0 <;> simp [hc, ht]
    · by_cases hc : cfg.windows = true <;> by_cases hd : host.d3dDevice = 0 <;>
        by_cases hf : host.createTexture2D < 0 <;> by_cases ht : host.d3dTexture = 0 <;>
        simp [hc, hd, hf, ht]
    · by_cases hc : cfg.macos = true <;> by_cases ht : host.mtlTexture = 0 <;> simp [hc, ht]
    · by_cases hc : cfg.vulkan = true <;> simp [hc]
    · rfl
    · rfl

theorem mdk_ensureTexture_requests (cfg : BuildConfig) (host : Texture.Host)
    (player : MDK.Ptr) (size : Nat × Nat) (n : Texture.MDKNode)
    (hp : player ≠ 0) (hw : n.m_window ≠ 0) :
    (host.graphicsApi = .OpenGL → cfg.opengl = true →
      (Texture.ensureTexture cfg host player size n).effects.filter Texture.Effect.isAllocation
        = [.newFramebufferObject size] ∧
      (Texture.ensureTexture cfg host player size n).node.fbo_gl
        = some ⟨size, host.fboHandle, host.fboTexture⟩) ∧
    (host.graphicsApi = .Direct3D11 → cfg.windows = true →
      (host.d3dDevice = 0 →
        (Texture.ensureTexture cfg host player size n).effects.filter
          Texture.Effect.isAllocation = [] ∧
        (Texture.ensureTexture cfg host player size n).outcome = .returned none ∧
        (Texture.ensureTexture cfg host player size n).node = n) ∧
      (host.d3dDevice ≠ 0 →
        (Texture.ensureTexture cfg host player size n).effects.filter
          Texture.Effect.isAllocation = [.createTexture2D size.1 size.2] ∧
        (0 ≤ host.createTexture2D →
          (Texture.ensureTexture cfg host player size n).node.m_texture_d3d11
            = host.d3dTexture) ∧
        (host.createTexture2D < 0 →
          (Texture.ensureTexture cfg host player size n).node.m_texture_d3d11 = 0 ∧
          (Texture.ensureTexture cfg host player size n).outcome = .returned none))) ∧
    (host.graphicsApi = .Metal → cfg.macos = true →
      (Texture.ensureTexture cfg host player size n).effects.filter Texture.Effect.isAllocation
        = [.newTextureWithDescriptor size.1 size.2] ∧
      (Texture.ensureTexture cfg host player size n).node.m_texture_mtl = host.mtlTexture) ∧
    (host.graphicsApi = .Vulkan → cfg.vulkan = true →
      (Texture.ensureTexture cfg host player size n).effects.filter Texture.Effect.isAllocation
        = [.vk (.vkCreateImage host.newDev size.1 size.2)] ∧
      (host.drv.createImage = Vulkan.VK_SUCCESS →
        (Texture.ensureTexture cfg host player size n).node.vk.m_texture_vk
          = host.drv.image) ∧
      (host.drv.createImage ≠ Vulkan.VK_SUCCESS →
        (Texture.ensureTexture cfg host player size n).node.vk.m_texture_vk = 0 ∧
        (Texture.ensureTexture cfg host player size n).outcome = .returned none)) := by
  unfold Texture.ensureTexture
  simp only [hp, hw, or_self, if_false]
  refine ⟨?_, ?_, ?_, ?_⟩
  · intro ha hc
    by_cases ht : host.fboTexture = 0 <;> simp [ha, hc, ht, Texture.Effect.isAllocation]
  · intro ha hc
    refine ⟨?_, ?_⟩
    · intro hd
      simp [ha, hc, hd, Texture.Effect.isAllocation]
    · intro hd
      by_cases hf : host.createTexture2D < 0 <;> by_cases ht : host.d3dTexture = 0 <;>
        simp [ha, hc, hd, hf, ht, Texture.Effect.isAllocation]
  · intro ha hc
    by_cases ht : host.mtlTexture = 0 <;> simp [ha, hc, ht, Texture.Effect.isAllocation]
  · intro ha hc
    simp only [ha, hc, if_true]
    unfold Vulkan.MDKVideoTextureNodeImpl.ensureTextureVulkan
      Vulkan.MDKVideoTextureNodeImpl.buildTexture Vulkan.MDKVideoTextureNodeImpl.freeTexture
    by_cases h0 : n.vk.m_texture_vk = 0 <;>
      by_cases h1 : host.drv.createImage = Vulkan.VK_SUCCESS <;>
      by_cases h2 : host.drv.allocateMemory = Vulkan.VK_SUCCESS <;>
      by_cases h3 : host.drv.bindImageMemory = Vulkan.VK_SUCCESS <;>
      simp [h0, h1, h2, h3, Texture.Effect.isAllocation]

theorem ensureTexture_fbo (cfg : BuildConfig) (host : Host) (player : MDK.Ptr)
    (size : Int × Int) (n : MPVVideoTextureNode) (hitem : n.m_item ≠ 0) (hwin : n.m_window ≠ 0)
    (hmpv : n.m_mpv ≠ 0) (hapi : host.graphicsApi = .OpenGL) (hgl : cfg.opengl = true) :
    (ensureTexture cfg host player size n).node.fbo_gl
      = some ⟨size, host.fboHandle, host.fboTexture⟩ := by
  unfold ensureTexture
  simp only [hitem, hwin, hmpv, or_self, if_false, hapi, hgl, if_true]
  by_cases hctx : n.m_mpv_gl = 0 <;> by_cases hc : host.createResult < 0 <;>
    by_cases ht : host.fboTexture = 0 <;> simp [hctx, hc, ht]

/-- C11, amended: `ensureTexture` compares no sizes. On every supported backend
(MDK: OpenGL, Direct3D11, Metal, Vulkan; mpv: OpenGL) a call with the engine
handle present requests exactly one new native render target, of the size
passed, whatever the node holds at that moment; the one exception is Direct3D11
without a device resource, which requests none and leaves the node as it is.
When the request succeeds the node holds the new target; when `CreateTexture2D`
or `vkCreateImage` fails it holds none and `nullptr` is returned. So three
successive calls with the sizes S1, S1, S2 make one request each, also for the
repeated S1 and whether or not S1 and S2 differ. The size comparison is made by
`sync()`: three successive `sync()` calls of the mpv node requesting S1, S1, S2
with S1 and S2 distinct, each rebuild succeeding, allocate for the first S1,
call nothing for the repeated S1, and allocate once for S2. -/
theorem ensureTexture_allocates_sync_compares_size (cfg : BuildConfig) :
    (∀ (host : Texture.Host) (player : MDK.Ptr) (size : Nat × Nat) (n : Texture.MDKNode),
      player ≠ 0 → n.m_window ≠ 0 →
      (host.graphicsApi = .OpenGL → cfg.opengl = true →
        (Texture.ensureTexture cfg host player size n).effects.filter
          Texture.Effect.isAllocation = [.newFramebufferObject size] ∧
        (Texture.ensureTexture cfg host player size n).node.fbo_gl
          = some ⟨size, host.fboHandle, host.fboTexture⟩) ∧
      (host.graphicsApi = .Direct3D11 → cfg.windows = true →
        (host.d3dDevice = 0 →
          (Texture.ensureTexture cfg host player size n).effects.filter
            Texture.Effect.isAllocation = [] ∧
          (Texture.ensureTexture cfg host player size n).outcome = .returned none ∧
          (Texture.ensureTexture cfg host player size n).node = n) ∧
        (host.d3dDevice ≠ 0 →
          (Texture.ensureTexture cfg host player size n).effects.filter
            Texture.Effect.isAllocation = [.createTexture2D size.1 size.2] ∧
          (0 ≤ host.createTexture2D →
            (Texture.ensureTexture cfg host player size n).node.m_texture_d3d11
              = host.d3dTexture) ∧
          (host.createTexture2D < 0 →
            (Texture.ensureTexture cfg host player size n).node.m_texture_d3d11 = 0 ∧
            (Texture.ensureTexture cfg host player size n).outcome = .returned none))) ∧
      (host.graphicsApi = .Metal → cfg.macos = true →
        (Texture.ensureTexture cfg host player size n).effects.filter
          Texture.Effect.isAllocation = [.newTextureWithDescriptor size.1 size.2] ∧
        (Texture.ensureTexture cfg host player size n).node.m_texture_mtl
          = host.mtlTexture) ∧
      (host.graphicsApi = .Vulkan → cfg.vulkan = true →
        (Texture.ensureTexture cfg host player size n).effects.filter
          Texture.Effect.isAllocation = [.vk (.vkCreateImage host.newDev size.1 size.2)] ∧
        (host.drv.createImage = Vulkan.VK_SUCCESS →
          (Texture.ensureTexture cfg host player size n).node.vk.m_texture_vk
            = host.drv.image) ∧
        (host.drv.createImage ≠ Vulkan.VK_SUCCESS →
          (Texture.ensureTexture cfg host player size n).node.vk.m_texture_vk = 0 ∧
          (Texture.ensureTexture cfg host player size n).outcome = .returned none))) ∧
    (∀ (host : Host) (player : MDK.Ptr) (size : Int × Int) (n : MPVVideoTextureNode),
      n.m_item ≠ 0 → n.m_window ≠ 0 → n.m_mpv ≠ 0 →
      host.graphicsApi = .OpenGL → cfg.opengl = true →
      (ensureTexture cfg host player size n).effects.filter Effect.isAllocation
        = [Effect.newFramebufferObject size] ∧
      (ensureTexture cfg host player size n).node.fbo_gl
        = some ⟨size, host.fboHandle, host.fboTexture⟩) ∧
    (∀ (h1 h2 h3 : Texture.Host) (player : MDK.Ptr) (s1 s2 : Nat × Nat) (n : Texture.MDKNode),
      player ≠ 0 → n.m_window ≠ 0 →
      ((h1.graphicsApi = .OpenGL ∧ cfg.opengl = true) ∨
        (h1.graphicsApi = .Direct3D11 ∧ cfg.windows = true ∧ h1.d3dDevice ≠ 0) ∨
        (h1.graphicsApi = .Metal ∧ cfg.macos = true) ∨
        (h1.graphicsApi = .Vulkan ∧ cfg.vulkan = true)) →
      ((h2.graphicsApi = .OpenGL ∧ cfg.opengl = true) ∨
        (h2.graphicsApi = .Direct3D11 ∧ cfg.windows = true ∧ h2.d3dDevice ≠ 0) ∨
        (h2.graphicsApi = .Metal ∧ cfg.macos = true) ∨
        (h2.graphicsApi = .Vulkan ∧ cfg.vulkan = true)) →
      ((h3.graphicsApi = .OpenGL ∧ cfg.opengl = true) ∨
        (h3.graphicsApi = .Direct3D11 ∧ cfg.windows = true ∧ h3.d3dDevice ≠ 0) ∨
        (h3.graphicsApi = .Metal ∧ cfg.macos = true) ∨
        (h3.graphicsApi = .Vulkan ∧ cfg.vulkan = true)) →
      ((Texture.ensureTexture cfg h1 player s1 n).effects.filter
        Texture.Effect.isAllocation).length = 1 ∧
      ((Texture.ensureTexture cfg h2 player s1
        (Texture.ensureTexture cfg h1 player s1 n).node).effects.filter
        Texture.Effect.isAllocation).length = 1 ∧
      ((Texture.ensureTexture cfg h3 player s2
        (Texture.ensureTexture cfg h2 player s1
          (Texture.ensureTexture cfg h1 player s1 n).node).node).effects.filter
        Texture.Effect.isAllocation).length = 1) ∧
    (∀ (h1 h2 h3 : Host) (player : MDK.Ptr) (s1 s2 : Int × Int) (n : MPVVideoTextureNode),
      n.m_item ≠ 0 → n.m_window ≠ 0 → n.m_mpv ≠ 0 → cfg.opengl = true →
      h1.graphicsApi = .OpenGL → h2.graphicsApi = .OpenGL → h3.graphicsApi = .OpenGL →
      (ensureTexture cfg h1 player s1 n).effects.filter Effect.isAllocation
        = [Effect.newFramebufferObject s1] ∧
      (ensureTexture cfg h2 player s1
        (ensureTexture cfg h1 player s1 n).node).effects.filter Effect.isAllocation
        = [Effect.newFramebufferObject s1] ∧
      (ensureTexture cfg h3 player s2
        (ensureTexture cfg h2 player s1
          (ensureTexture cfg h1 player s1 n).node).node).effects.filter Effect.isAllocation
        = [Effect.newFramebufferObject s2]) ∧
    (∀ (f1 f2 f3 : Frame) (h1 h2 h3 : Host) (n : MPVVideoTextureNode),
      n.m_item ≠ 0 → n.m_window ≠ 0 → n.m_mpv ≠ 0 → n.texture = none →
      cfg.opengl = true →
      h1.graphicsApi = .OpenGL → 0 ≤ h1.createResult → h1.fboTexture ≠ 0 →
      h3.graphicsApi = .OpenGL → 0 ≤ h3.createResult → h3.fboTexture ≠ 0 →
      f2.newSize = f1.newSize → f3.newSize ≠ f1.newSize →
      (sync cfg f1 h1 n).effects.filter Effect.isAllocation
        = [Effect.newFramebufferObject f1.newSize] ∧
      (sync cfg f2 h2 (sync cfg f1 h1 n).node).effects = [] ∧
      (sync cfg f3 h3 (sync cfg f2 h2 (sync cfg f1 h1 n).node).node).effects.filter
        Effect.isAllocation = [Effect.newFramebufferObject f3.newSize]) := by
  refine ⟨?_, ?_, ?_, ?_, ?_⟩
  · intro host player size n hp hw
    exact mdk_ensureTexture_requests cfg host player size n hp hw
  · intro host player size n hi hw hm hapi hgl
    exact ⟨(ensureTexture_opengl cfg host player size n hi hw hm hapi hgl).1,
      ensureTexture_fbo cfg host player size n hi hw hm hapi hgl⟩
  · intro h1 h2 h3 player s1 s2 n hp hw a1 a2 a3
    have w1 : (Texture.ensureTexture cfg h1 player s1 n).node.m_window ≠ 0 := by
      rw [mdk_ensureTexture_window]
      exact hw
    have w2 : (Texture.ensureTexture cfg h2 player s1
        (Texture.ensureTexture cfg h1 player s1 n).node).node.m_window ≠ 0 := by
      rw [mdk_ensureTexture_window]
      exact w1
    exact ⟨mdk_ensureTexture_allocates_once cfg h1 player s1 n hp hw a1,
      mdk_ensureTexture_allocates_once cfg h2 player s1 _ hp w1 a2,
      mdk_ensureTexture_allocates_once cfg h3 player s2 _ hp w2 a3⟩
  · intro h1 h2 h3 player s1 s2 n hi hw hm hgl a1 a2 a3
    obtain ⟨_, _, i1, w1, m1⟩ := ensureTexture_texture cfg h1 player s1 n
    obtain ⟨_, _, i2, w2, m2⟩ := ensureTexture_texture cfg h2 player s1
      (ensureTexture cfg h1 player s1 n).node
    have hi1 : (ensureTexture cfg h1 player s1 n).node.m_item ≠ 0 := by rw [i1]; exact hi
    have hw1 : (ensureTexture cfg h1 player s1 n).node.m_window ≠ 0 := by rw [w1]; exact hw
    have hm1 : (ensureTexture cfg h1 player s1 n).node.m_mpv ≠ 0 := by rw [m1]; exact hm
    exact ⟨(ensureTexture_opengl cfg h1 player s1 n hi hw hm a1 hgl).1,
      (ensureTexture_opengl cfg h2 player s1 _ hi1 hw1 hm1 a2 hgl).1,
      (ensureTexture_opengl cfg h3 player s2 _ (by rw [i2]; exact hi1) (by rw [w2]; exact hw1)
        (by rw [m2]; exact hm1) a3 hgl).1⟩
  · intro f1 f2 f3 h1 h2 h3 n hi hw hm htex hgl a1 c1 t1 a3 c3 t3 e12 e13
    obtain ⟨_, r1tex, r1size, r1i, r1w, r1m, r1alloc⟩ :=
      sync_rebuild_ok cfg f1 h1 n hi hw hm (by simp [htex]) a1 hgl c1 t1
    have htex1 : (sync cfg f1 h1 n).node.texture ≠ none := by
      rw [r1tex]
      simp
    obtain ⟨_, r2node, r2eff⟩ := sync_noop cfg f2 h2 (sync cfg f1 h1 n).node htex1
      (by rw [e12, r1size])
    refine ⟨r1alloc, r2eff, ?_⟩
    rw [r2node]
    have hneed : ¬ ((sync cfg f1 h1 n).node.texture ≠ none ∧
        f3.newSize = (sync cfg f1 h1 n).node.m_size) := by
      rw [r1size]
      intro h
      exact e13 h.2
    exact (sync_rebuild_ok cfg f3 h3 (sync cfg f1 h1 n).node (by rw [r1i]; exact hi)
      (by rw [r1w]; exact hw) (by rw [r1m]; exact hm) hneed a3 hgl c3 t3).2.2.2.2.2.2

/-- C11, amended, at a concrete input: on the Vulkan backend the MDK node
requests an image in each of three calls with the sizes 4 x 4, 4 x 4, 8 x 8; the
mpv node synchronised for an item of 640 x 360, again 640 x 360, then 800 x 600,
at device pixel ratio 2, allocates for the first and the third only. -/
theorem ensureTexture_allocates_sync_compares_size_witness :
    (((Texture.ensureTexture allBackends (Texture.sampleHost .Vulkan) 7 (4, 4)
        Texture.sampleNode).effects.filter Texture.Effect.isAllocation).length = 1 ∧
      ((Texture.ensureTexture allBackends (Texture.sampleHost .Vulkan) 7 (4, 4)
        (Texture.ensureTexture allBackends (Texture.sampleHost .Vulkan) 7 (4, 4)
          Texture.sampleNode).node).effects.filter Texture.Effect.isAllocation).length = 1 ∧
      ((Texture.ensureTexture allBackends (Texture.sampleHost .Vulkan) 7 (8, 8)
        (Texture.ensureTexture allBackends (Texture.sampleHost .Vulkan) 7 (4, 4)
          (Texture.ensureTexture allBackends (Texture.sampleHost .Vulkan) 7 (4, 4)
            Texture.sampleNode).node).node).effects.filter
        Texture.Effect.isAllocation).length = 1) ∧
    ((sync allBackends frameA (sampleHost .OpenGL) sampleNode).effects.filter
        Effect.isAllocation = [Effect.newFramebufferObject frameA.newSize] ∧
      (sync allBackends frameA (sampleHost .OpenGL)
        (sync allBackends frameA (sampleHost .OpenGL) sampleNode).node).effects = [] ∧
      (sync allBackends frameB (sampleHost .OpenGL)
        (sync allBackends frameA (sampleHost .OpenGL)
          (sync allBackends frameA (sampleHost .OpenGL) sampleNode).node).node).effects.filter
        Effect.isAllocation = [Effect.newFramebufferObject frameB.newSize]) :=
  ⟨(ensureTexture_allocates_sync_compares_size allBackends).2.2.1
      (Texture.sampleHost .Vulkan) (Texture.sampleHost .Vulkan) (Texture.sampleHost .Vulkan)
      7 (4, 4) (8, 8) Texture.sampleNode (by decide) (by decide)
      (Or.inr (Or.inr (Or.inr ⟨rfl, rfl⟩))) (Or.inr (Or.inr (Or.inr ⟨rfl, rfl⟩)))
      (Or.inr (Or.inr (Or.inr ⟨rfl, rfl⟩))),
   (ensureTexture_allocates_sync_compares_size allBackends).2.2.2.2 frameA frameA frameB
      (sampleHost .OpenGL) (sampleHost .OpenGL) (sampleHost .OpenGL) sampleNode
      (by decide) (by decide) (by decide) rfl rfl rfl (by decide) (by decide) rfl (by decide)
      (by decide) rfl (by rw [frameA_newSize, frameB_newSize]; decide)⟩

end MPV

/-! ## The MDK texture node: readiness and transform mode -/

namespace Texture

theorem freeTexture_plain (v : Vulkan.MDKVideoTextureNodeImpl) :
    ∀ c ∈ (Vulkan.MDKVideoTextureNodeImpl.freeTexture v).2,
      (Effect.vk c).isSetRenderAPI = false ∧ (Effect.vk c).isSetRendererReady = false := by
  unfold Vulkan.MDKVideoTextureNodeImpl.freeTexture
  by_cases h0 : v.m_texture_vk = 0 <;>
    simp [h0, Effect.isSetRenderAPI, Effect.isSetRendererReady]

theorem buildTexture_plain (drv : Vulkan.VkDriver) (size : Nat × Nat)
    (v : Vulkan.MDKVideoTextureNodeImpl) :
    ∀ c ∈ (Vulkan.MDKVideoTextureNodeImpl.buildTexture drv size v).2.2,
      (Effect.vk c).isSetRenderAPI = false ∧ (Effect.vk c).isSetRendererReady = false := by
  unfold Vulkan.MDKVideoTextureNodeImpl.buildTexture
  by_cases h1 : drv.createImage = Vulkan.VK_SUCCESS <;>
    by_cases h2 : drv.allocateMemory = Vulkan.VK_SUCCESS <;>
    by_cases h3 : drv.bindImageMemory = Vulkan.VK_SUCCESS <;>
    simp [h1, h2, h3, Effect.isSetRenderAPI, Effect.isSetRendererReady]

theorem ensureTextureVulkan_trace (physDev newDev : Vulkan.Handle) (drv : Vulkan.VkDriver)
    (size : Nat × Nat) (v : Vulkan.MDKVideoTextureNodeImpl) :
    (Vulkan.MDKVideoTextureNodeImpl.ensureTextureVulkan physDev newDev drv size v).2.2 =
      ((Vulkan.MDKVideoTextureNodeImpl.freeTexture { v with m_physDev := physDev }).2 ++
        (Vulkan.MDKVideoTextureNodeImpl.buildTexture drv size
          { (Vulkan.MDKVideoTextureNodeImpl.freeTexture
              { v with m_physDev := physDev }).1 with m_dev := newDev }).2.2) ++
      [Vulkan.Call.setRenderAPI
          (Vulkan.MDKVideoTextureNodeImpl.ensureTextureVulkan physDev newDev drv size v).2.1.m_dev
          (Vulkan.MDKVideoTextureNodeImpl.ensureTextureVulkan physDev newDev drv size
            v).2.1.m_physDev
          (Vulkan.MDKVideoTextureNodeImpl.ensureTextureVulkan physDev newDev drv size
            v).2.1.m_texture_vk,
        Vulkan.Call.setRendererReady true] := by
  rfl

/-- C21: in every branch of `ensureTexture`, either the call makes no
`setRenderAPI` call and sends no `setRendererReady`, or its calls end with
exactly one `setRenderAPI` followed at once by exactly one
`setRendererReady(true)`, with neither of the two among the calls before. -/
theorem ensureTexture_ready_follows_registration (cfg : BuildConfig) (host : Host)
    (player : MDK.Ptr) (size : Nat × Nat) (n : MDKNode) :
    (∀ e ∈ (ensureTexture cfg host player size n).effects,
      e.isSetRenderAPI = false ∧ e.isSetRendererReady = false) ∨
    (∃ pre reg ready,
      (ensureTexture cfg host player size n).effects = pre ++ [reg, ready] ∧
      reg.isSetRenderAPI = true ∧
      (ready = Effect.setRendererReady true ∨
        ready = Effect.vk (Vulkan.Call.setRendererReady true)) ∧
      ∀ e ∈ pre, e.isSetRenderAPI = false ∧ e.isSetRendererReady = false) := by
  unfold ensureTexture
  by_cases hg : player = 0 ∨ n.m_window = 0
  · left
    simp [hg]
  · simp only [hg, if_false]
    cases hapi : host.graphicsApi with
    | OpenGL =>
      by_cases hc : cfg.opengl = true
      · right
        refine ⟨[Effect.newFramebufferObject size], Effect.setRenderAPI_GL host.fboHandle,
          Effect.setRendererReady true, ?_, rfl, Or.inl rfl, ?_⟩
        · by_cases ht : host.fboTexture = 0 <;> simp [hc, ht]
        · simp [Effect.isSetRenderAPI, Effect.isSetRendererReady]
      · left
        simp [hc]
    | Direct3D11 =>
      by_cases hc : cfg.windows = true
      · by_cases hd : host.d3dDevice = 0
        · left
          simp [hc, hd, Effect.isSetRenderAPI, Effect.isSetRendererReady]
        · by_cases hf : host.createTexture2D < 0
          · left
            simp [hc, hd, hf, Effect.isSetRenderAPI, Effect.isSetRendererReady]
          · right
            refine ⟨[Effect.getDeviceResource, Effect.createTexture2D size.1 size.2],
              Effect.setRenderAPI_D3D11 host.d3dTexture, Effect.setRendererReady true,
              ?_, rfl, Or.inl rfl, ?_⟩
            · by_cases ht : host.d3dTexture = 0 <;> simp [hc, hd, hf, ht]
            · simp [Effect.isSetRenderAPI, Effect.isSetRendererReady]
      · left
        simp [hc]
    | Metal =>
      by_cases hc : cfg.macos = true
      · right
        refine ⟨[Effect.getDeviceResource, Effect.newTextureWithDescriptor size.1 size.2,
            Effect.getCommandQueueResource],
          Effect.setRenderAPI_Metal host.mtlTexture host.mtlDevice host.cmdQueue,
          Effect.setRendererReady true, ?_, rfl, Or.inl rfl, ?_⟩
        · by_cases ht : host.mtlTexture = 0 <;> simp [hc, ht]
        · simp [Effect.isSetRenderAPI, Effect.isSetRendererReady]
      · left
        simp [hc]
    | Vulkan =>
      by_cases hc : cfg.vulkan = true
      · right
        simp only [hc, if_true]
        rw [ensureTextureVulkan_trace, List.map_append]
        refine ⟨_, Effect.vk (Vulkan.Call.setRenderAPI _ _ _),
          Effect.vk (Vulkan.Call.setRendererReady true), rfl, rfl, Or.inr rfl, ?_⟩
        intro e he
        simp only [List.mem_map, List.mem_append] at he
        obtain ⟨c, hc2, rfl⟩ := he
        rcases hc2 with hc2 | hc2
        · exact freeTexture_plain _ c hc2
        · exact buildTexture_plain _ _ _ c hc2
      · left
        simp [hc]
    | Software => left; simp
    | Unknown => left; simp
    | OpenVG => left; simp
    | Null => left; simp

theorem ensureTexture_keeps_transform (cfg : BuildConfig) (host : Host) (player : MDK.Ptr)
    (size : Nat × Nat) (n : MDKNode)
    (hapi : host.graphicsApi = .Direct3D11 ∨ host.graphicsApi = .Metal ∨
      host.graphicsApi = .Vulkan) :
    (ensureTexture cfg host player size n).node.m_transformMode = n.m_transformMode := by
  unfold ensureTexture
  by_cases hg : player = 0 ∨ n.m_window = 0
  · simp [hg]
  · simp only [hg, if_false]
    rcases hapi with h | h | h
    · by_cases hc : cfg.windows = true <;> by_cases hd : host.d3dDevice = 0 <;>
        by_cases hf : host.createTexture2D < 0 <;> by_cases ht : host.d3dTexture = 0 <;>
        simp [h, hc, hd, hf, ht]
    · by_cases hc : cfg.macos = true <;> by_cases ht : host.mtlTexture = 0 <;>
        simp [h, hc, ht]
    · by_cases hc : cfg.vulkan = true <;> simp [h, hc]

/-- C22: the OpenGL branch of `ensureTexture` leaves the transform mode at
`MirrorVertically`; the Direct3D11, Metal and Vulkan branches leave it as it
was; a fresh node has `NoTransform`, and after any run of `ensureTexture` calls
that only use those three backends the mode is still `NoTransform`. -/
theorem ensureTexture_transform_mode (cfg : BuildConfig) :
    (∀ (host : Host) (player : MDK.Ptr) (size : Nat × Nat) (n : MDKNode),
      player ≠ 0 → n.m_window ≠ 0 → host.graphicsApi = .OpenGL → cfg.opengl = true →
      (ensureTexture cfg host player size n).node.m_transformMode = .MirrorVertically) ∧
    (∀ (host : Host) (player : MDK.Ptr) (size : Nat × Nat) (n : MDKNode),
      host.graphicsApi = .Direct3D11 ∨ host.graphicsApi = .Metal ∨
        host.graphicsApi = .Vulkan →
      (ensureTexture cfg host player size n).node.m_transformMode = n.m_transformMode) ∧
    (∀ window item : MDK.Ptr,
      ({ m_window := window, m_item := item } : MDKNode).m_transformMode = .NoTransform) ∧
    (∀ (calls : List EnsureCall) (n : MDKNode),
      (∀ c ∈ calls, c.host.graphicsApi = .Direct3D11 ∨ c.host.graphicsApi = .Metal ∨
        c.host.graphicsApi = .Vulkan) →
      n.m_transformMode = .NoTransform →
      (runEnsure cfg calls n).m_transformMode = .NoTransform) := by
  refine ⟨?_, ?_, fun _ _ => rfl, ?_⟩
  · intro host player size n hp hw hapi hc
    unfold ensureTexture
    by_cases ht : host.fboTexture = 0 <;> simp [hp, hw, hapi, hc, ht]
  · intro host player size n hapi
    exact ensureTexture_keeps_transform cfg host player size n hapi
  · intro calls
    induction calls with
    | nil => intro n _ h; exact h
    | cons c cs ih =>
      intro n hall hn
      have hstep := ensureTexture_keeps_transform cfg c.host c.player c.size n
        (hall c (List.mem_cons_self _ _))
      unfold runEnsure
      split
      · rw [hstep, hn]
      · exact ih _ (fun x hx => hall x (List.mem_cons_of_mem _ hx)) (by rw [hstep, hn])

/-- C22 at a concrete input: a fresh node used on Vulkan, Direct3D11, Metal and
Vulkan again keeps `NoTransform`; one OpenGL call sets `MirrorVertically`. -/
theorem ensureTexture_transform_mode_witness :
    (runEnsure allBackends
      [⟨sampleHost .Vulkan, 7, (4, 4)⟩, ⟨sampleHost .Direct3D11, 7, (4, 4)⟩,
       ⟨sampleHost .Metal, 7, (8, 8)⟩, ⟨outOfMemoryHost, 7, (8, 8)⟩]
      sampleNode).m_transformMode = .NoTransform ∧
    (ensureTexture allBackends (sampleHost .OpenGL) 7 (4, 4) sampleNode).node.m_transformMode
      = .MirrorVertically :=
  ⟨(ensureTexture_transform_mode allBackends).2.2.2 _ sampleNode
      (by
        intro c hc
        simp only [List.mem_cons, List.mem_singleton, List.not_mem_nil, or_false] at hc
        rcases hc with h | h | h | h <;> subst h <;> decide)
      rfl,
   (ensureTexture_transform_mode allBackends).1 (sampleHost .OpenGL) 7 (4, 4) sampleNode
      (by decide) (by decide) rfl rfl⟩

end Texture

/-! ## The Vulkan texture path: the memory type index -/

namespace Vulkan

namespace MDKVideoTextureNodeImpl

/-- C30: for a memory-type count of at most 32, the index `buildTexture` chooses
is an index below the count whose bit is set in the mask whenever there is one;
when no index below the count has its bit set it is 0, and `buildTexture` (after
a successful `vkCreateImage`) still calls `vkAllocateMemory`, with index 0, and
succeeds or fails with the answers to `vkAllocateMemory` and
`vkBindImageMemory` alone. -/
theorem buildTexture_memory_type_is_match_or_zero (drv : VkDriver) (size : Nat × Nat)
    (n : MDKVideoTextureNodeImpl) (hcount : drv.memoryTypeCount ≤ 32) :
    ((∃ i, i < drv.memoryTypeCount ∧ drv.memoryTypeBits.testBit i = true) →
      memIndexLoop drv.memoryTypeBits drv.memoryTypeCount < drv.memoryTypeCount ∧
      drv.memoryTypeBits.testBit (memIndexLoop drv.memoryTypeBits drv.memoryTypeCount)
        = true) ∧
    ((∀ i, i < drv.memoryTypeCount → drv.memoryTypeBits.testBit i = false) →
      memIndexLoop drv.memoryTypeBits drv.memoryTypeCount = 0 ∧
      (drv.createImage = VK_SUCCESS →
        (buildTexture drv size n).2.2.filter
            (fun c => match c with
              | .vkAllocateMemory _ _ _ => true
              | _ => false)
          = [Call.vkAllocateMemory n.m_dev drv.memReqSize 0] ∧
        ((buildTexture drv size n).1 = true ↔
          drv.allocateMemory = VK_SUCCESS ∧ drv.bindImageMemory = VK_SUCCESS))) ∧
    (∀ dev allocationSize index,
      Call.vkAllocateMemory dev allocationSize index ∈ (buildTexture drv size n).2.2 →
      index = memIndexLoop drv.memoryTypeBits drv.memoryTypeCount) := by
  refine ⟨?_, ?_, ?_⟩
  · intro hex
    obtain ⟨a1, a2, _⟩ :=
      memIndexLoop_last_match drv.memoryTypeBits drv.memoryTypeCount hcount hex
    exact ⟨a1, a2⟩
  · intro hnone
    have h0 := memIndexLoop_no_match drv.memoryTypeBits drv.memoryTypeCount hcount hnone
    refine ⟨h0, ?_⟩
    intro hc
    unfold buildTexture
    rw [h0]
    by_cases ha : drv.allocateMemory = VK_SUCCESS <;>
      by_cases hb : drv.bindImageMemory = VK_SUCCESS <;>
      simp [hc, ha, hb]
  · intro dev allocationSize index hmem
    unfold buildTexture at hmem
    by_cases hc : drv.createImage = VK_SUCCESS <;>
      by_cases ha : drv.allocateMemory = VK_SUCCESS <;>
      by_cases hb : drv.bindImageMemory = VK_SUCCESS <;>
      simp [hc, ha, hb] at hmem <;> exact hmem.2.2

/-- C30 at a concrete input: a mask without any bit below the count (mask 4,
two memory types): index 0 is passed to `vkAllocateMemory`. -/
theorem buildTexture_memory_type_is_match_or_zero_witness :
    memIndexLoop 4 2 = 0 ∧
    (buildTexture { sampleDriver with memoryTypeBits := 4 } (4, 4) {}).2.2.filter
        (fun c => match c with
          | .vkAllocateMemory _ _ _ => true
          | _ => false)
      = [Call.vkAllocateMemory 0 64 0] :=
  ⟨((buildTexture_memory_type_is_match_or_zero { sampleDriver with memoryTypeBits := 4 }
      (4, 4) {} (by decide)).2.1 (by decide)).1,
   (((buildTexture_memory_type_is_match_or_zero { sampleDriver with memoryTypeBits := 4 }
      (4, 4) {} (by decide)).2.1 (by decide)).2 rfl).1⟩

end MDKVideoTextureNodeImpl

end Vulkan

/-! ## The mpv texture node: rendering -/

namespace MPV

open Texture (BuildConfig allBackends)

theorem ensureTexture_keeps_fbo (cfg : BuildConfig) (host : Host) (player : MDK.Ptr)
    (size : Int × Int) (n : MPVVideoTextureNode)
    (h : n.m_mpv_gl ≠ 0 → n.fbo_gl ≠ none) :
    (ensureTexture cfg host player size n).node.m_mpv_gl ≠ 0 →
      (ensureTexture cfg host player size n).node.fbo_gl ≠ none := by
  unfold ensureTexture
  by_cases h1 : n.m_item = 0 ∨ n.m_window = 0
  · simpa [h1] using h
  · by_cases h2 : n.m_mpv = 0
    · simpa [h1, h2] using h
    · simp only [h1, h2, if_false]
      split
      · by_cases hgl : cfg.opengl = true <;> by_cases hctx : n.m_mpv_gl = 0 <;>
          by_cases hc : host.createResult < 0 <;> by_cases ht : host.fboTexture = 0 <;>
          simp [hgl, hctx, hc, ht] <;> simpa [hctx] using h
      · simpa using h
      · simpa using h

theorem sync_keeps_fbo (cfg : BuildConfig) (fr : Frame) (host : Host)
    (n : MPVVideoTextureNode) (h : n.m_mpv_gl ≠ 0 → n.fbo_gl ≠ none) :
    (sync cfg fr host n).node.m_mpv_gl ≠ 0 → (sync cfg fr host n).node.fbo_gl ≠ none := by
  have hens := ensureTexture_keeps_fbo cfg host 0 fr.newSize { n with m_size := fr.newSize } h
  unfold sync
  by_cases h1 : n.m_item = 0 ∨ n.m_window = 0
  · simpa [h1] using h
  · by_cases h2 : n.texture ≠ none ∧ fr.newSize = n.m_size
    · simpa [h1, h2] using h
    · by_cases h3 : n.m_mpv = 0
      · simpa [h1, h2, h3] using h
      · simp only [h1, h2, h3, if_false]
        split
        · exact hens
        · exact hens
        · exact hens

theorem runCalls_keeps_fbo (cfg : BuildConfig) (calls : List NodeCall)
    (n : MPVVideoTextureNode) (h : n.m_mpv_gl ≠ 0 → n.fbo_gl ≠ none) :
    (runCalls cfg calls n).m_mpv_gl ≠ 0 → (runCalls cfg calls n).fbo_gl ≠ none := by
  induction calls generalizing n with
  | nil => exact h
  | cons c cs ih =>
    cases c with
    | render => exact ih n h
    | sync fr host =>
      have hs := sync_keeps_fbo cfg fr host n h
      unfold runCalls
      split
      · exact hs
      · exact ih _ hs

theorem render_ne_nullFramebuffer (n : MPVVideoTextureNode)
    (h : n.m_mpv_gl ≠ 0 → n.fbo_gl ≠ none) : render n ≠ .nullFramebuffer := by
  unfold render
  by_cases h1 : n.m_item = 0 ∨ n.m_window = 0
  · simp [h1]
  · by_cases h2 : n.m_mpv = 0 ∨ n.m_mpv_gl = 0
    · simp [h1, h2]
    · simp only [h1, h2, if_false]
      have hfbo := h (fun hc => h2 (Or.inr hc))
      split
      · simp
      · rename_i hnone
        exact absurd hnone hfbo

/-- C29, at the failing input. A node is constructed for an item that already
has an mpv handle and a render context, so `fbo_gl` is still null; `render()`
runs before the first `sync()`, passes its four null checks and reads the null
`fbo_gl`, and so does a second `render()`. On the same node a `sync()` first
allocates the framebuffer object, which `render()` then reads. -/
theorem render_before_sync_reads_null_fbo :
    contextNode.m_mpv ≠ 0 ∧ contextNode.m_mpv_gl ≠ 0 ∧ contextNode.fbo_gl = none ∧
    render contextNode = .nullFramebuffer ∧
    render (runCalls allBackends [NodeCall.render] contextNode) = .nullFramebuffer ∧
    render (runCalls allBackends [NodeCall.sync frameA (sampleHost .OpenGL)] contextNode)
      = .rendered 9 ⟨(1280, 720), 3, 4⟩ := by
  refine ⟨by decide, by decide, by decide, by decide, by decide, ?_⟩
  simp [runCalls, render, sync, ensureTexture, contextNode, sampleHost, allBackends,
    frameA_newSize]

/-- When the item's render context is null at construction, then after every run
of `sync()` and `render()` calls, for every initial mpv handle, a non-null
render context implies a non-null `fbo_gl`, so `render()` never reads a null
framebuffer object: the node's own code creates the context only inside
`ensureTexture`, after `fbo_gl` has been set. -/
theorem render_reads_allocated_fbo (cfg : BuildConfig) (item window mpv : MDK.Ptr)
    (calls : List NodeCall) :
    ((runCalls cfg calls { m_item := item, m_window := window, m_mpv := mpv }).m_mpv_gl ≠ 0 →
      (runCalls cfg calls { m_item := item, m_window := window, m_mpv := mpv }).fbo_gl
        ≠ none) ∧
    render (runCalls cfg calls { m_item := item, m_window := window, m_mpv := mpv })
      ≠ .nullFramebuffer := by
  have h := runCalls_keeps_fbo cfg calls { m_item := item, m_window := window, m_mpv := mpv }
    (fun hne => absurd rfl hne)
  exact ⟨h, render_ne_nullFramebuffer _ h⟩

end MPV

/-! ## Threads calling the wrappers -/

namespace MDK

namespace Concurrent

theorem step_keeps_owner (d : MDKData) (s : Sys) (m : Move)
    (h : ∀ i, s.pc i ≠ .idle → s.owner = some i) :
    ∀ i, (step d s m).pc i ≠ .idle → (step d s m).owner = some i := by
  intro i
  unfold step
  cases hpc : s.pc m.tid with
  | idle =>
    cases hown : s.owner with
    | none =>
      intro hi
      by_cases hit : i = m.tid
      · subst hit
        rfl
      · have hold : s.pc i ≠ .idle := by
          simpa [Function.update_noteq hit] using hi
        have := h i hold
        rw [hown] at this
        exact absurd this (by simp)
    | some o =>
      intro hi
      have := h i hi
      show s.owner = some i
      exact this
  | locked f args =>
    have htid : s.owner = some m.tid := h m.tid (by rw [hpc]; simp)
    by_cases hslot : d.m_lp f = 0
    · simp only [hslot, ne_eq, not_true_eq_false, if_false]
      intro hi
      by_cases hit : i = m.tid
      · subst hit
        exact htid
      · exact h i (by simpa [Function.update_noteq hit] using hi)
    · simp only [hslot, ne_eq, not_false_eq_true, if_true]
      intro hi
      by_cases hit : i = m.tid
      · subst hit
        exact htid
      · exact h i (by simpa [Function.update_noteq hit] using hi)
  | inCall f args =>
    have htid : s.owner = some m.tid := h m.tid (by rw [hpc]; simp)
    intro hi
    by_cases hit : i = m.tid
    · subst hit
      exact htid
    · exact h i (by simpa [Function.update_noteq hit] using hi)
  | done =>
    have htid : s.owner = some m.tid := h m.tid (by rw [hpc]; simp)
    intro hi
    by_cases hit : i = m.tid
    · subst hit
      simp at hi
    · have hold : s.pc i ≠ .idle := by
        simpa [Function.update_noteq hit] using hi
      have := h i hold
      rw [htid] at this
      exact absurd (Option.some.inj this).symm hit

theorem run_keeps_owner (d : MDKData) (moves : List Move) (s : Sys)
    (h : ∀ i, s.pc i ≠ .idle → s.owner = some i) :
    ∀ i, (run d moves s).pc i ≠ .idle → (run d moves s).owner = some i := by
  induction moves generalizing s with
  | nil => exact h
  | cons m ms ih =>
    unfold run
    rw [List.foldl_cons]
    exact ih (step d s m) (step_keeps_owner d s m h)

/-- C23: after every interleaving of the steps of any threads through the
call-through wrappers, a thread that is inside a resolved native function holds
the mutex, and no two threads are inside a native function at the same time. -/
theorem native_calls_are_serialized (d : MDKData) (moves : List Move) :
    (∀ i, ((run d moves Sys.init).pc i).isInCall = true →
      (run d moves Sys.init).owner = some i) ∧
    (∀ i j, ((run d moves Sys.init).pc i).isInCall = true →
      ((run d moves Sys.init).pc j).isInCall = true → i = j) := by
  have h := run_keeps_owner d moves Sys.init (fun i hi => absurd rfl hi)
  have hcall : ∀ i, ((run d moves Sys.init).pc i).isInCall = true →
      (run d moves Sys.init).owner = some i := by
    intro i hi
    apply h i
    intro hidle
    rw [hidle] at hi
    exact absurd hi (by decide)
  refine ⟨hcall, ?_⟩
  intro i j hi hj
  have a := hcall i hi
  have b := hcall j hj
  rw [a] at b
  exact Option.some.inj b

/-- C23 at a concrete input: thread 0 enters `MDK_version` on a fully loaded
binding, thread 1 then tries `MDK_strdup` and waits; thread 0 is inside the
native function and holds the mutex, thread 1 is outside. -/
theorem native_calls_are_serialized_witness :
    ((run (MDKData.load fullEnv "full" MDKData.init).2.1
        [⟨0, .MDK_version, []⟩, ⟨1, .MDK_strdup, [Val.ptr 7]⟩, ⟨0, .MDK_version, []⟩,
         ⟨1, .MDK_strdup, [Val.ptr 7]⟩] Sys.init).pc 0).isInCall = true ∧
    (run (MDKData.load fullEnv "full" MDKData.init).2.1
        [⟨0, .MDK_version, []⟩, ⟨1, .MDK_strdup, [Val.ptr 7]⟩, ⟨0, .MDK_version, []⟩,
         ⟨1, .MDK_strdup, [Val.ptr 7]⟩] Sys.init).pc 1 = .idle ∧
    (run (MDKData.load fullEnv "full" MDKData.init).2.1
        [⟨0, .MDK_version, []⟩, ⟨1, .MDK_strdup, [Val.ptr 7]⟩, ⟨0, .MDK_version, []⟩,
         ⟨1, .MDK_strdup, [Val.ptr 7]⟩] Sys.init).owner = some 0 :=
  ⟨by decide, by decide,
   (native_calls_are_serialized (MDKData.load fullEnv "full" MDKData.init).2.1
      [⟨0, .MDK_version, []⟩, ⟨1, .MDK_strdup, [Val.ptr 7]⟩, ⟨0, .MDK_version, []⟩,
       ⟨1, .MDK_strdup, [Val.ptr 7]⟩]).1 0 (by decide)⟩

end Concurrent

end MDK

/-! ## The player interface -/

namespace Player

/-- C24, at the failing input: three chapters starting at 0, 10 and 20 and the
position 15, inside the second chapter. `nextChapter()` calls `seek(20)` and
then `seek(10)`: two seeks, the last one to the start of the current chapter. -/
theorem nextChapter_seeks_for_every_earlier_chapter :
    nextChapter ⟨false, sampleChapters, 15⟩ = [20, 10] := by
  decide

/-- C25, at the failing input: three chapters starting at 0, 10 and 20 and the
position 25, inside the third chapter. `previousChapter()` calls `seek(10)` and
then `seek(0)`: two seeks, the last one to the start of the first chapter. -/
theorem previousChapter_seeks_for_every_earlier_chapter :
    previousChapter ⟨false, sampleChapters, 25⟩ = [10, 0] := by
  decide

/-- C26, at the failing input: three chapters starting at 0, 10 and 20 and the
position 25, inside the last chapter. `nextChapter()` calls `seek(20)` and then
`seek(10)` instead of doing nothing. -/
theorem nextChapter_seeks_in_last_chapter :
    nextChapter ⟨false, sampleChapters, 25⟩ = [20, 10] ∧
    nextChapter ⟨false, sampleChapters, 20⟩ = [20, 10] := by
  decide

/-- C27, at the failing input: a picture of 4000 x 3000 on a screen with 1920 x
1080 available, window in the `Windowed` state. The result is 1920 x 1440, whose
height exceeds the available height. -/
theorem recommendedWindowSize_exceeds_screen_height :
    recommendedWindowSize (4000, 3000) true true (some (1920, 1080)) = (1920, 1440) ∧
    (1080 : ℚ) < (recommendedWindowSize (4000, 3000) true true (some (1920, 1080))).2 := by
  have h : recommendedWindowSize (4000, 3000) true true (some (1920, 1080)) = (1920, 1440) := by
    norm_num [recommendedWindowSize]
  rw [h]
  exact ⟨rfl, by norm_num⟩

/-- C28, at the failing input: two tracks with one entry each. The header of
the second track follows the entry of the first on the same line. -/
theorem getMediaTracksSummary_header_inside_line :
    getMediaTracksSummary "Video Track" sampleTracks
      = "Video Track #1\ncodec: h264Video Track #2\ncodec: hevc" := by
  decide

end Player

end QtMediaPlayer
